import Mathlib

/-!
# LV2 host adapter (`src/src/lv2_wrapper.cpp`)

A shallow embedding of `lv2::Lv2Wrapper`.  The wrapper is a record of its data
members; the native library (lilv) is an explicit environment of oracles, and
every call that reaches the native library is appended to a chronological call
log, so that statements about "which native calls are made, and in which order"
are statements about that log.
-/

namespace lv2

/-! ## Data model -/

/-- A C `float`, held as its IEEE-754 binary32 bit pattern (read modulo `2^32`). -/
abbrev F32 := Nat

/-- The C library test `std::isnan` on a binary32 pattern: the exponent field
(bits 23..30) is all ones and the fraction field (bits 0..22) is not zero. -/
def isnan (x : F32) : Bool :=
  ((x % 2 ^ 32) / 2 ^ 23 % 256 == 255) && (x % 2 ^ 23 != 0)

/-- The literal `0.0F`: the all-zero pattern. -/
def zeroF : F32 := 0

/-- The enumeration `PortType`.  The source names `TYPE_CONTROL` and `TYPE_AUDIO`;
the declaration itself is in `lv2_wrapper.hpp`, so every further enumerator
is represented by `TYPE_OTHER`. -/
inductive PortType where
  | TYPE_CONTROL
  | TYPE_AUDIO
  | TYPE_OTHER (tag : Nat)
  deriving DecidableEq, Repr

/-- One entry of the wrapper's port table (`struct Port`). -/
structure Port where
  type : PortType
  index : Nat
  name : String
  symbol : String
  value : F32
  is_input : Bool
  optional : Bool
  deriving DecidableEq, Repr

/-- What the lilv queries used by `create_ports` answer for one port of a plugin:
name, symbol, the default reported by `lilv_plugin_get_port_ranges_float`
(NaN when the plugin gives none), the `connectionOptional` property, and the
four `lilv_port_is_a` class tests. -/
structure LilvPort where
  name : String
  symbol : String
  default_value : F32
  connectionOptional : Bool
  is_InputPort : Bool
  is_OutputPort : Bool
  is_ControlPort : Bool
  is_AudioPort : Bool
  deriving DecidableEq, Repr

/-- A plugin description as lilv serves it: `lilv_plugin_get_num_ports` is the
length of `ports`, `lilv_plugin_get_port_by_index plugin n` is its `n`-th entry. -/
structure LilvPlugin where
  ports : List LilvPort
  required_features : List String
  deriving DecidableEq, Repr

/-- The data pointer handed to `lilv_instance_connect_port`, named by the
expression that produced it: `&p.value` for the table entry at position `pos`,
or `.data()` of one of the four audio buffers of `connect_data_ports`. -/
inductive DataPtr where
  | port_value (pos : Nat)
  | left_in
  | right_in
  | left_out
  | right_out
  deriving DecidableEq, Repr

/-- A call into the native library.  Instance handles are `Option Nat`, `none`
being the null pointer; a call the source makes on a null handle is recorded
with `none`. -/
inductive NativeCall where
  | plugin_instantiate (rate : Nat) (result : Option Nat)
  | instance_connect_port (inst : Option Nat) (index : Nat) (data : DataPtr)
  | instance_activate (inst : Option Nat)
  | instance_run (inst : Option Nat) (sample_count : Nat)
  | instance_deactivate (inst : Option Nat)
  | instance_free (inst : Option Nat)
  | world_free (world : Nat)
  deriving DecidableEq, Repr

/-- A line written through `util::debug`, `util::warning` or `util::error`. -/
inductive LogMsg where
  | debug (text : String)
  | warning (text : String)
  | error (text : String)
  deriving DecidableEq, Repr

/-- The native library as seen by the wrapper.  `plugin_instantiate` may depend
on everything that was called before (the library is stateful), on the plugin
and on the requested rate; `none` is a null result. -/
structure Lilv where
  world_new : Option Nat
  new_uri : String → Bool
  plugins_get_by_uri : String → Option LilvPlugin
  plugin_instantiate : List NativeCall → Option LilvPlugin → Nat → Option Nat

/-- The data members of `Lv2Wrapper`. -/
structure Lv2Wrapper where
  log_tag : String
  plugin_uri : String
  world : Option Nat
  plugin : Option LilvPlugin
  instance_ : Option Nat
  found_plugin : Bool
  n_ports : Nat
  n_audio_in : Nat
  n_audio_out : Nat
  n_samples : Nat
  ports : List Port
  deriving DecidableEq, Repr

/-- A wrapper together with the two observable effect streams of its methods:
the native calls made so far and the lines logged so far, oldest first. -/
structure Host where
  self : Lv2Wrapper
  calls : List NativeCall
  log : List LogMsg
  deriving DecidableEq, Repr

/-! ## Methods -/

/-- `Lv2Wrapper::activate`. -/
def activate (s : Host) : Host :=
  { s with calls := s.calls ++ [NativeCall.instance_activate s.self.instance_] }

/-- `Lv2Wrapper::deactivate`. -/
def deactivate (s : Host) : Host :=
  { s with calls := s.calls ++ [NativeCall.instance_deactivate s.self.instance_] }

/-- `Lv2Wrapper::run`. -/
def run (s : Host) : Host :=
  if s.self.instance_ ≠ none then
    { s with calls := s.calls ++ [NativeCall.instance_run s.self.instance_ s.self.n_samples] }
  else s

/-- `Lv2Wrapper::set_n_samples`. -/
def set_n_samples (s : Host) (value : Nat) : Host :=
  { s with self := { s.self with n_samples := value } }

/-- `Lv2Wrapper::get_n_samples`. -/
def get_n_samples (s : Host) : Nat := s.self.n_samples

/-- The loop of `connect_control_ports` over the table, `pos` being the position of
the entry `p` whose `&p.value` is passed. -/
def connect_control_ports_loop (inst : Option Nat) : Nat → List Port → List NativeCall
  | _, [] => []
  | pos, p :: ps =>
    (if p.type = PortType.TYPE_CONTROL then
        [NativeCall.instance_connect_port inst p.index (DataPtr.port_value pos)]
      else []) ++ connect_control_ports_loop inst (pos + 1) ps

/-- `Lv2Wrapper::connect_control_ports`. -/
def connect_control_ports (s : Host) : Host :=
  { s with calls := s.calls ++ connect_control_ports_loop s.self.instance_ 0 s.self.ports }

/-- The loop of `connect_data_ports`, carrying `count_input` and `count_output`.
The counters are compared with 0 and 1 only and the table has fewer than `2^32`
entries, so they are kept as naturals. -/
def connect_data_ports_loop (inst : Option Nat) : List Port → Nat → Nat → List NativeCall
  | [], _, _ => []
  | p :: ps, count_input, count_output =>
    if p.type = PortType.TYPE_AUDIO then
      if p.is_input then
        (if count_input = 0 then
            [NativeCall.instance_connect_port inst p.index DataPtr.left_in]
          else if count_input = 1 then
            [NativeCall.instance_connect_port inst p.index DataPtr.right_in]
          else []) ++ connect_data_ports_loop inst ps (count_input + 1) count_output
      else
        (if count_output = 0 then
            [NativeCall.instance_connect_port inst p.index DataPtr.left_out]
          else if count_output = 1 then
            [NativeCall.instance_connect_port inst p.index DataPtr.right_out]
          else []) ++ connect_data_ports_loop inst ps count_input (count_output + 1)
    else connect_data_ports_loop inst ps count_input count_output

/-- The native calls of one `connect_data_ports`, in the order they are made. -/
def connect_data_ports_calls (w : Lv2Wrapper) : List NativeCall :=
  connect_data_ports_loop w.instance_ w.ports 0 0

/-- `Lv2Wrapper::connect_data_ports`; the four buffers appear as the pointer
names `left_in`, `right_in`, `left_out`, `right_out`. -/
def connect_data_ports (s : Host) : Host :=
  { s with calls := s.calls ++ connect_data_ports_calls s.self }

/-- `Lv2Wrapper::create_instance`. -/
def create_instance (lilv : Lilv) (s : Host) (rate : Nat) : Bool × Host :=
  let s1 : Host :=
    if s.self.instance_ ≠ none then
      let d := deactivate s
      { d with
        calls := d.calls ++ [NativeCall.instance_free d.self.instance_]
        self := { d.self with instance_ := none } }
    else s
  let r := lilv.plugin_instantiate s1.calls s1.self.plugin rate
  let s2 : Host :=
    { s1 with
      calls := s1.calls ++ [NativeCall.plugin_instantiate rate r]
      self := { s1.self with instance_ := r } }
  if s2.self.instance_ = none then
    (false, { s2 with
      log := s2.log ++
        [LogMsg.warning (s2.self.log_tag ++ "failed to instantiate " ++ s2.self.plugin_uri)] })
  else
    (true, activate (connect_control_ports s2))

/-- `Lv2Wrapper::~Lv2Wrapper`. -/
def destructor (s : Host) : Host :=
  let s1 : Host :=
    if s.self.instance_ ≠ none then
      { s with
        calls := s.calls ++ [NativeCall.instance_deactivate s.self.instance_,
                             NativeCall.instance_free s.self.instance_]
        self := { s.self with instance_ := none } }
    else s
  match s1.self.world with
  | some w => { s1 with calls := s1.calls ++ [NativeCall.world_free w] }
  | none => s1

/-- `std::vector<Port>::resize`: keep the first `n` entries, pad with
value-initialised ports `init`. -/
def resize (ports : List Port) (n : Nat) (init : Port) : List Port :=
  ports.take n ++ List.replicate (n - ports.length) init

/-- The members `create_ports` updates while it walks the ports. -/
structure PortsAcc where
  n_audio_in : Nat
  n_audio_out : Nat
  log : List LogMsg
  deriving DecidableEq, Repr

/-- One iteration of the loop of `create_ports`: `port` is `ports[n]` as `resize`
left it, `lilv_port` is `lilv_plugin_get_port_by_index plugin n`. -/
def create_ports_body (log_tag : String) (n : Nat) (port : Port) (lilv_port : LilvPort)
    (acc : PortsAcc) : Port × PortsAcc :=
  let p0 : Port :=
    { port with
      index := n
      name := lilv_port.name
      symbol := lilv_port.symbol
      value := if isnan lilv_port.default_value then zeroF else lilv_port.default_value
      optional := lilv_port.connectionOptional }
  let p1 : Port := if lilv_port.is_InputPort then { p0 with is_input := true } else p0
  let log1 : List LogMsg :=
    if lilv_port.is_InputPort then acc.log
    else if !lilv_port.is_OutputPort && !p0.optional then
      acc.log ++ [LogMsg.error (log_tag ++ "Port " ++ p0.name ++ " is neither input nor output!")]
    else acc.log
  if lilv_port.is_ControlPort then
    ({ p1 with type := PortType.TYPE_CONTROL }, { acc with log := log1 })
  else if lilv_port.is_AudioPort then
    ({ p1 with type := PortType.TYPE_AUDIO },
     { n_audio_in := if p1.is_input then acc.n_audio_in + 1 else acc.n_audio_in
       n_audio_out := if !p1.is_input then acc.n_audio_out + 1 else acc.n_audio_out
       log := log1 })
  else if !p1.optional then
    (p1, { acc with
      log := log1 ++ [LogMsg.error (log_tag ++ "Port " ++ p1.name ++ " has un unsupported type!")] })
  else (p1, { acc with log := log1 })

/-- The loop `for (uint n = 0; n < n_ports; n++)` of `create_ports`, started at
index `n` on the table entries and the plugin ports from `n` on. -/
def create_ports_loop (log_tag : String) :
    Nat → List Port → List LilvPort → PortsAcc → List Port × PortsAcc
  | n, port :: ports, lilv_port :: lilv_ports, acc =>
    let r := create_ports_body log_tag n port lilv_port acc
    let rest := create_ports_loop log_tag (n + 1) ports lilv_ports r.2
    (r.1 :: rest.1, rest.2)
  | _, ports, _, acc => (ports, acc)

/-- `Lv2Wrapper::create_ports`, for the plugin the member `plugin` points to.
`init` is a value-initialised `Port` (the struct is declared in
`lv2_wrapper.hpp`, so its initial field values are a parameter). -/
def create_ports (init : Port) (plugin : LilvPlugin) (s : Host) : Host :=
  let n_ports := plugin.ports.length
  let resized := resize s.self.ports n_ports init
  let r := create_ports_loop s.self.log_tag 0 resized plugin.ports
    { n_audio_in := s.self.n_audio_in, n_audio_out := s.self.n_audio_out, log := s.log }
  { s with
    self := { s.self with
      n_ports := n_ports
      ports := r.1
      n_audio_in := r.2.n_audio_in
      n_audio_out := r.2.n_audio_out }
    log := r.2.log }

/-- `Lv2Wrapper::check_required_features`: one debug line per required feature. -/
def check_required_features (plugin : LilvPlugin) (s : Host) : Host :=
  { s with
    log := s.log ++ plugin.required_features.map
      (fun f => LogMsg.debug (s.self.log_tag ++ s.self.plugin_uri ++ " requires feature: " ++ f)) }

/-- Modelled from the spec: the member initialisers of `Lv2Wrapper`, which are in
`lv2_wrapper.hpp`: no world, no plugin, no instance (an Uninstantiated slot),
`found_plugin` false, all counts zero and an empty port table. -/
def initial (log_tag plugin_uri : String) : Lv2Wrapper :=
  { log_tag := log_tag
    plugin_uri := plugin_uri
    world := none
    plugin := none
    instance_ := none
    found_plugin := false
    n_ports := 0
    n_audio_in := 0
    n_audio_out := 0
    n_samples := 0
    ports := [] }

/-- `Lv2Wrapper::Lv2Wrapper`. -/
def constructor (lilv : Lilv) (init : Port) (log_tag plugin_uri : String) : Host :=
  let s0 : Host := { self := initial log_tag plugin_uri, calls := [], log := [] }
  let s1 : Host := { s0 with self := { s0.self with world := lilv.world_new } }
  if s1.self.world = none then
    { s1 with log := s1.log ++ [LogMsg.warning (log_tag ++ "failed to initialized the world")] }
  else if lilv.new_uri plugin_uri = false then
    { s1 with log := s1.log ++ [LogMsg.warning (log_tag ++ "Invalid plugin URI: " ++ plugin_uri)] }
  else
    let s2 : Host := { s1 with self := { s1.self with plugin := lilv.plugins_get_by_uri plugin_uri } }
    match s2.self.plugin with
    | none =>
      { s2 with
        log := s2.log ++ [LogMsg.warning (log_tag ++ "Could not find the plugin: " ++ plugin_uri)] }
    | some plugin =>
      let s3 : Host := { s2 with self := { s2.self with found_plugin := true } }
      create_ports init plugin (check_required_features plugin s3)

/-! ## Vocabulary of the statements -/

/-- The calls by which a held instance is torn down (native deactivate, then
native free); nothing when no instance is held. -/
def release_calls (w : Lv2Wrapper) : List NativeCall :=
  match w.instance_ with
  | some h => [NativeCall.instance_deactivate (some h), NativeCall.instance_free (some h)]
  | none => []

/-- The calls `~Lv2Wrapper` makes on the world handle. -/
def world_calls (w : Lv2Wrapper) : List NativeCall :=
  match w.world with
  | some x => [NativeCall.world_free x]
  | none => []

/-- The table entry is an audio input port. -/
def is_audio_input (p : Port) : Bool := decide (p.type = PortType.TYPE_AUDIO) && p.is_input

/-- The table entry is an audio output port. -/
def is_audio_output (p : Port) : Bool := decide (p.type = PortType.TYPE_AUDIO) && !p.is_input

/-- The number of audio ports of the table that have the direction of `p` and an
index below that of `p`: 0 for the lowest-index audio port of a direction, 1 for
the second-lowest. -/
def index_rank (ports : List Port) (p : Port) : Nat :=
  ports.countP (fun q =>
    decide (q.type = PortType.TYPE_AUDIO) && (q.is_input == p.is_input) &&
      decide (q.index < p.index))

/-- The binding rule in the words of the specification: the first audio port of a
direction gets the left buffer of that direction, the second the right one, any
further port none. -/
def audio_buffer : Bool → Nat → Option DataPtr
  | true, 0 => some DataPtr.left_in
  | true, 1 => some DataPtr.right_in
  | false, 0 => some DataPtr.left_out
  | false, 1 => some DataPtr.right_out
  | _, _ => none

/-- The connect calls the specification asks for, in index order: each audio port
is connected to the buffer its direction and its rank by index select; ports
that are not audio, and audio ports of rank 2 and more, get no call. -/
def audio_binding (inst : Option Nat) (ports : List Port) : List NativeCall :=
  ports.filterMap (fun p =>
    if p.type = PortType.TYPE_AUDIO then
      (audio_buffer p.is_input (index_rank ports p)).map
        (NativeCall.instance_connect_port inst p.index)
    else none)

/-- The resource-counting test double: a native instantiation that returns a
handle adds one live handle, a native free of a handle removes one. -/
def live_delta : NativeCall → Int
  | NativeCall.plugin_instantiate _ (some _) => 1
  | NativeCall.instance_free (some _) => -1
  | _ => 0

/-- The number of handles instantiated and not yet freed after the given calls. -/
def live_handles (calls : List NativeCall) : Int := (calls.map live_delta).sum

/-- Starting with `n` live handles, the count stays between 0 and 1 before, between
and after the given calls. -/
def within_one (n : Int) : List NativeCall → Prop
  | [] => 0 ≤ n ∧ n ≤ 1
  | c :: cs => (0 ≤ n ∧ n ≤ 1) ∧ within_one (n + live_delta c) cs

/-- A sequence of `create_instance` calls on one wrapper, one per rate. -/
def create_instances (lilv : Lilv) (s : Host) (rates : List Nat) : Host :=
  rates.foldl (fun t rate => (create_instance lilv t rate).2) s

/-- A plugin with one audio input, one audio output and the control port `gain_db`. -/
def gain_plugin : LilvPlugin :=
  { ports :=
      [ { name := "In", symbol := "in", default_value := 0x7FC00000, connectionOptional := false,
          is_InputPort := true, is_OutputPort := false,
          is_ControlPort := false, is_AudioPort := true },
        { name := "Out", symbol := "out", default_value := 0x7FC00000, connectionOptional := false,
          is_InputPort := false, is_OutputPort := true,
          is_ControlPort := false, is_AudioPort := true },
        { name := "Gain", symbol := "gain_db", default_value := 0, connectionOptional := false,
          is_InputPort := true, is_OutputPort := false,
          is_ControlPort := true, is_AudioPort := false } ]
    required_features := [] }

/-- A native library that knows `gain_plugin` under every URI, instantiates it at
every rate but 0, and numbers its handles by the calls made so far. -/
def gain_lilv : Lilv :=
  { world_new := some 1
    new_uri := fun _ => true
    plugins_get_by_uri := fun _ => some gain_plugin
    plugin_instantiate := fun calls _ rate => if rate = 0 then none else some (calls.length + 1) }

/-- An all-zero `Port`. -/
def zero_port : Port :=
  { type := PortType.TYPE_CONTROL, index := 0, name := "", symbol := "", value := 0,
    is_input := false, optional := false }

/-- The wrapper constructed for `urn:example:gain` on `gain_lilv`. -/
def gain_host : Host := constructor gain_lilv zero_port "lv2_wrapper: " "urn:example:gain"

/-- The wrapper of `gain_host` after a successful `create_instance` at 48000 Hz:
it holds the instance with handle 1, instantiated, connected and activated. -/
def gain_active : Host := (create_instance gain_lilv gain_host 48000).2

/-- The table entry one iteration of `create_ports` makes of the entry `port` for
plugin port number `n`: a function of that one plugin port only. -/
def classify (port : Port) (n : Nat) (lp : LilvPort) : Port :=
  { type :=
      if lp.is_ControlPort then PortType.TYPE_CONTROL
      else if lp.is_AudioPort then PortType.TYPE_AUDIO
      else port.type
    index := n
    name := lp.name
    symbol := lp.symbol
    value := if isnan lp.default_value then zeroF else lp.default_value
    is_input := lp.is_InputPort || port.is_input
    optional := lp.connectionOptional }

/-- The shape faults of one plugin port in the words of the specification: a port
that is not optional gives a direction error when it is declared neither input
nor output, and a kind error when it is declared neither control nor audio; an
optional port gives none. -/
def port_errors (log_tag : String) (lp : LilvPort) : List LogMsg :=
  (if lp.connectionOptional = false ∧ lp.is_InputPort = false ∧ lp.is_OutputPort = false then
      [LogMsg.error (log_tag ++ "Port " ++ lp.name ++ " is neither input nor output!")]
    else []) ++
  (if lp.connectionOptional = false ∧ lp.is_ControlPort = false ∧ lp.is_AudioPort = false then
      [LogMsg.error (log_tag ++ "Port " ++ lp.name ++ " has un unsupported type!")]
    else [])

/-- The number of ports the plugin declares as audio input ports. -/
def declared_audio_in (plugin : LilvPlugin) : Nat :=
  plugin.ports.countP (fun lp => lp.is_AudioPort && lp.is_InputPort)

/-- The number of ports the plugin declares as audio output ports. -/
def declared_audio_out (plugin : LilvPlugin) : Nat :=
  plugin.ports.countP (fun lp => lp.is_AudioPort && lp.is_OutputPort)

/-- The fields of a table entry that introspection fixes: everything but the value
slot, which the plugin reads and writes through the address it was given. -/
def port_shape (p : Port) : Nat × String × String × PortType × Bool × Bool :=
  (p.index, p.name, p.symbol, p.type, p.is_input, p.optional)

/-- Two wrappers carry the same introspection result: the same port table up to
the value slots, and the same counts. -/
def same_introspection (a b : Lv2Wrapper) : Prop :=
  a.ports.map port_shape = b.ports.map port_shape ∧ a.n_ports = b.n_ports ∧
    a.n_audio_in = b.n_audio_in ∧ a.n_audio_out = b.n_audio_out

/-- A native library that knows `plugin` under every URI and instantiates it at
every rate, 0 included, numbering its handles by the calls made so far. -/
def every_rate_lilv (plugin : LilvPlugin) : Lilv :=
  { world_new := some 1
    new_uri := fun _ => true
    plugins_get_by_uri := fun _ => some plugin
    plugin_instantiate := fun calls _ _ => some (calls.length + 1) }

/-- The wrapper constructed for `plugin` on `every_rate_lilv plugin`. -/
def open_host (plugin : LilvPlugin) : Host :=
  constructor (every_rate_lilv plugin) zero_port "lv2_wrapper: " "urn:example:plugin"

/-- A plugin with one port declared both control and audio (an input), and one
audio port declared neither input nor output. -/
def clash_plugin : LilvPlugin :=
  { ports :=
      [ { name := "Both", symbol := "both", default_value := 0, connectionOptional := false,
          is_InputPort := true, is_OutputPort := false,
          is_ControlPort := true, is_AudioPort := true },
        { name := "Loose", symbol := "loose", default_value := 0, connectionOptional := true,
          is_InputPort := false, is_OutputPort := false,
          is_ControlPort := false, is_AudioPort := true } ]
    required_features := [] }

/-- A plugin whose port 0 is an event input, declared neither control nor audio and
not optional, followed by an audio input and an audio output. -/
def atom_plugin : LilvPlugin :=
  { ports :=
      [ { name := "Events", symbol := "events", default_value := 0x7FC00000,
          connectionOptional := false, is_InputPort := true, is_OutputPort := false,
          is_ControlPort := false, is_AudioPort := false },
        { name := "In", symbol := "in", default_value := 0x7FC00000, connectionOptional := false,
          is_InputPort := true, is_OutputPort := false,
          is_ControlPort := false, is_AudioPort := true },
        { name := "Out", symbol := "out", default_value := 0x7FC00000, connectionOptional := false,
          is_InputPort := false, is_OutputPort := true,
          is_ControlPort := false, is_AudioPort := true } ]
    required_features := [] }

/-- A plugin with three audio inputs and three audio outputs, declared alternately,
and one control port. -/
def surround_plugin : LilvPlugin :=
  { ports :=
      [ { name := "In 1", symbol := "in1", default_value := 0, connectionOptional := false,
          is_InputPort := true, is_OutputPort := false,
          is_ControlPort := false, is_AudioPort := true },
        { name := "Out 1", symbol := "out1", default_value := 0, connectionOptional := false,
          is_InputPort := false, is_OutputPort := true,
          is_ControlPort := false, is_AudioPort := true },
        { name := "In 2", symbol := "in2", default_value := 0, connectionOptional := false,
          is_InputPort := true, is_OutputPort := false,
          is_ControlPort := false, is_AudioPort := true },
        { name := "Out 2", symbol := "out2", default_value := 0, connectionOptional := false,
          is_InputPort := false, is_OutputPort := true,
          is_ControlPort := false, is_AudioPort := true },
        { name := "In 3", symbol := "in3", default_value := 0, connectionOptional := false,
          is_InputPort := true, is_OutputPort := false,
          is_ControlPort := false, is_AudioPort := true },
        { name := "Out 3", symbol := "out3", default_value := 0, connectionOptional := false,
          is_InputPort := false, is_OutputPort := true,
          is_ControlPort := false, is_AudioPort := true },
        { name := "Gain", symbol := "gain_db", default_value := 0, connectionOptional := false,
          is_InputPort := true, is_OutputPort := false,
          is_ControlPort := true, is_AudioPort := false } ]
    required_features := [] }

/-- The wrapper for `surround_plugin` after a successful `create_instance`: it holds
the instance with handle 1. -/
def surround_active : Host :=
  (create_instance (every_rate_lilv surround_plugin) (open_host surround_plugin) 48000).2

end lv2

/-!
# UI helpers (`src/src/ui_helpers.cpp`, `src/src/presets_menu.cpp`)

Byte strings (`std::string`, `char*`) are lists of byte values; a C string is a
byte string without the byte 0.
-/

namespace ui

/-- The GTK constant `GTK_INPUT_ERROR`. -/
def GTK_INPUT_ERROR : Int := -1

/-- What `parse_spinbutton_input` reads of a spin button: the text of its entry and
its range (`gtk_spin_button_get_range`).  Numbers are values of a linearly
ordered type, as the `double`s that are not NaN are. -/
structure GtkSpinButton (α : Type) where
  text : List Nat
  min : α
  max : α

/-- The library function `std::clamp(v, lo, hi)`. -/
def clamp {α : Type} [LinearOrder α] (v lo hi : α) : α :=
  if v < lo then lo else if hi < v then hi else v

/-- `ui::parse_spinbutton_input`.  `extract text old` is the formatted extraction
`str >> *new_value` in the user locale on a stream holding `text`, `old` being
the value of `*new_value` before: it answers whether the stream is good
afterwards and what `*new_value` holds then.  The result is the returned code
and the final `*new_value`. -/
def parse_spinbutton_input {α : Type} [LinearOrder α] (extract : List Nat → α → Bool × α)
    (button : GtkSpinButton α) (new_value : α) : Int × α :=
  let r := extract button.text new_value
  if r.1 then (1, clamp r.2 button.min button.max)
  else (GTK_INPUT_ERROR, r.2)

/-- The conversion `std::string::c_str` as a C string reader sees it: the bytes
before the first 0. -/
def c_str (s : List Nat) : List Nat := s.takeWhile (fun b => b != 0)

/-- The search loop shared by `append_to_string_list` and `remove_from_string_list`:
is there an `n` with `gtk_string_list_get_string(string_list, n) == name`? -/
def string_list_has : List (List Nat) → List Nat → Bool
  | [], _ => false
  | item :: items, name => if item = name then true else string_list_has items name

/-- `ui::append_to_string_list` on the items of the list. -/
def append_to_string_list (string_list : List (List Nat)) (name : List Nat) : List (List Nat) :=
  if string_list_has string_list name then string_list
  else string_list ++ [c_str name]

/-- `ui::remove_from_string_list` on the items of the list: the first item equal to
`name` is removed. -/
def remove_from_string_list : List (List Nat) → List Nat → List (List Nat)
  | [], _ => []
  | item :: items, name =>
    if item = name then items else item :: remove_from_string_list items name

namespace presets_menu

/-- What `create_preset` does to the outside: it clears the name field, writes a
debug line about a rejected name, or hands a name to `presets_manager->add`. -/
inductive Effect where
  | set_text (text : List Nat)
  | debug_illegal_name (name : List Nat)
  | add (name : List Nat)
  deriving DecidableEq, Repr

/-- `ui::presets_menu::create_preset`, as the list of its effects in order.
`g_utf8_make_valid` is the GLib function of that name, `text` the text of the
name field; the preset type passed along with the name is that of the menu. -/
def create_preset (g_utf8_make_valid : List Nat → List Nat) (text : List Nat) : List Effect :=
  let name := g_utf8_make_valid text
  if name.isEmpty then []
  else
    let name := if name.length > 100 then name.take 100 else name
    if name.any (fun c => c == 92 || c == 47) then
      [Effect.set_text [], Effect.debug_illegal_name name]
    else
      [Effect.set_text [], Effect.add name]

/-- The names handed to `presets_manager->add`. -/
def added : List Effect → List (List Nat)
  | [] => []
  | Effect.add name :: es => name :: added es
  | _ :: es => added es

end presets_menu

namespace preferences_window

/-- The settings-to-widget mapping bound to the spectrum key "type" in
`preferences_window_init`: `value` is what the `GValue` holds when the mapping is
called, `v` the string of the variant (GVariant strings are text, held as a
`String`).  The result is the returned code and what the `GValue` holds then. -/
def spectrum_type_get_mapping (value : Int) (v : String) : Int × Int :=
  if v = "Bars" then (1, 0)
  else if v = "Lines" then (1, 1)
  else (1, value)

/-- The widget-to-settings mapping bound to the spectrum key "type": the string of
the new variant for the integer the `GValue` holds. -/
def spectrum_type_set_mapping (value : Int) : String :=
  if value = 0 then "Bars"
  else if value = 1 then "Lines"
  else "Bars"

end preferences_window

end ui

namespace lv2

/-! ## Port introspection: `create_ports` -/

theorem create_ports_body_index (log_tag : String) (n : Nat) (port : Port) (lilv_port : LilvPort)
    (acc : PortsAcc) : (create_ports_body log_tag n port lilv_port acc).1.index = n := by
  unfold create_ports_body
  by_cases h1 : lilv_port.is_ControlPort = true <;> by_cases h2 : lilv_port.is_AudioPort = true <;>
    by_cases h3 : lilv_port.is_InputPort = true <;>
    by_cases h4 : lilv_port.connectionOptional = true <;> simp [h1, h2, h3, h4]

theorem create_ports_body_value (log_tag : String) (n : Nat) (port : Port) (lilv_port : LilvPort)
    (acc : PortsAcc) :
    (create_ports_body log_tag n port lilv_port acc).1.value =
      if isnan lilv_port.default_value then zeroF else lilv_port.default_value := by
  unfold create_ports_body
  by_cases h1 : lilv_port.is_ControlPort = true <;> by_cases h2 : lilv_port.is_AudioPort = true <;>
    by_cases h3 : lilv_port.is_InputPort = true <;>
    by_cases h4 : lilv_port.connectionOptional = true <;> simp [h1, h2, h3, h4]

theorem resize_length (ports : List Port) (n : Nat) (init : Port) :
    (resize ports n init).length = n := by
  unfold resize
  simp only [List.length_append, List.length_take, List.length_replicate]
  omega

theorem create_ports_loop_length (log_tag : String) (ports : List Port) :
    ∀ (n : Nat) (lilv_ports : List LilvPort) (acc : PortsAcc),
      (create_ports_loop log_tag n ports lilv_ports acc).1.length = ports.length := by
  induction ports with
  | nil => intro n lilv_ports acc; simp [create_ports_loop]
  | cons port ports ih =>
    intro n lilv_ports acc
    cases lilv_ports with
    | nil => simp [create_ports_loop]
    | cons lilv_port lilv_ports => simp [create_ports_loop, ih]

theorem create_ports_loop_index (log_tag : String) (ports : List Port) :
    ∀ (n : Nat) (lilv_ports : List LilvPort) (acc : PortsAcc),
      ports.length = lilv_ports.length →
      (create_ports_loop log_tag n ports lilv_ports acc).1.map Port.index =
        List.range' n lilv_ports.length := by
  induction ports with
  | nil =>
    intro n lilv_ports acc h
    cases lilv_ports with
    | nil => simp [create_ports_loop]
    | cons lilv_port lilv_ports => simp at h
  | cons port ports ih =>
    intro n lilv_ports acc h
    cases lilv_ports with
    | nil => simp at h
    | cons lilv_port lilv_ports =>
      have h2 : ports.length = lilv_ports.length := by simpa using h
      simp [create_ports_loop, create_ports_body_index, ih _ _ _ h2, List.range'_succ]

theorem create_ports_loop_value (log_tag : String) (ports : List Port) :
    ∀ (n : Nat) (lilv_ports : List LilvPort) (acc : PortsAcc),
      ports.length = lilv_ports.length →
      (create_ports_loop log_tag n ports lilv_ports acc).1.map Port.value =
        lilv_ports.map
          (fun lp => if isnan lp.default_value then zeroF else lp.default_value) := by
  induction ports with
  | nil =>
    intro n lilv_ports acc h
    cases lilv_ports with
    | nil => simp [create_ports_loop]
    | cons lilv_port lilv_ports => simp at h
  | cons port ports ih =>
    intro n lilv_ports acc h
    cases lilv_ports with
    | nil => simp at h
    | cons lilv_port lilv_ports =>
      have h2 : ports.length = lilv_ports.length := by simpa using h
      simp [create_ports_loop, create_ports_body_value, ih _ _ _ h2]

theorem isnan_zeroF : isnan zeroF = false := by decide

/-- C6: for every plugin description reporting N ports (whatever their classes
and properties, shape faults included), whatever the value-initialised port
and the wrapper state, `create_ports` leaves a port table of exactly N entries
whose index fields in table order are 0, 1, ..., N-1, and sets `n_ports` to N. -/
theorem create_ports_indices (init : Port) (plugin : LilvPlugin) (s : Host) :
    (create_ports init plugin s).self.ports.length = plugin.ports.length ∧
    (create_ports init plugin s).self.ports.map Port.index = List.range plugin.ports.length ∧
    (create_ports init plugin s).self.n_ports = plugin.ports.length := by
  refine ⟨?_, ?_, rfl⟩
  · simp [create_ports, create_ports_loop_length, resize_length]
  · simp only [create_ports]
    rw [create_ports_loop_index _ _ _ _ _ (resize_length _ _ _), List.range_eq_range']

/-- C7: the values stored by `create_ports`, read in table order, are the plugin
defaults with every not-a-number default replaced by `0.0F` and every other
default kept as it is; hence no value in the table is a NaN. -/
theorem create_ports_value_not_nan (init : Port) (plugin : LilvPlugin) (s : Host) :
    (create_ports init plugin s).self.ports.map Port.value =
      plugin.ports.map (fun lp => if isnan lp.default_value then zeroF else lp.default_value) ∧
    ((create_ports init plugin s).self.ports.all (fun p => !isnan p.value)) = true := by
  have h : (create_ports init plugin s).self.ports.map Port.value =
      plugin.ports.map
        (fun lp => if isnan lp.default_value then zeroF else lp.default_value) := by
    simp only [create_ports]
    exact create_ports_loop_value _ _ _ _ _ (resize_length _ _ _)
  refine ⟨h, ?_⟩
  rw [List.all_eq_true]
  intro p hp
  have hv : p.value ∈ (create_ports init plugin s).self.ports.map Port.value :=
    List.mem_map_of_mem _ hp
  rw [h, List.mem_map] at hv
  obtain ⟨lp, _, hlp⟩ := hv
  rw [← hlp]
  by_cases hn : isnan lp.default_value = true
  · simp [hn, isnan_zeroF]
  · simp [hn]

/-! ## Instance lifecycle -/

/-- What `create_instance` does, in one equation per outcome of the native
instantiation call (which sees the calls made up to it, teardown included). -/
theorem create_instance_eq (lilv : Lilv) (s : Host) (rate : Nat) :
    create_instance lilv s rate =
      match lilv.plugin_instantiate (s.calls ++ release_calls s.self) s.self.plugin rate with
      | none =>
        (false,
          { self := { s.self with instance_ := none }
            calls := s.calls ++ release_calls s.self ++ [NativeCall.plugin_instantiate rate none]
            log := s.log ++
              [LogMsg.warning (s.self.log_tag ++ "failed to instantiate " ++ s.self.plugin_uri)] })
      | some h =>
        (true,
          { self := { s.self with instance_ := some h }
            calls := s.calls ++ release_calls s.self ++
              [NativeCall.plugin_instantiate rate (some h)] ++
              connect_control_ports_loop (some h) 0 s.self.ports ++
              [NativeCall.instance_activate (some h)]
            log := s.log }) := by
  obtain ⟨w, calls, log⟩ := s
  obtain ⟨tag, uri, world, plugin, inst, found, np, nin, nout, ns, ports⟩ := w
  cases inst with
  | none =>
    simp only [create_instance, release_calls, List.append_nil]
    cases hr : lilv.plugin_instantiate calls plugin rate <;>
      simp [hr, activate, connect_control_ports]
  | some h0 =>
    simp only [create_instance, release_calls, deactivate]
    simp only [ne_eq, reduceCtorEq, not_false_eq_true, if_true, List.append_assoc,
      List.singleton_append]
    cases hr : lilv.plugin_instantiate
        (calls ++ [NativeCall.instance_deactivate (some h0), NativeCall.instance_free (some h0)])
        plugin rate <;>
      simp [hr, activate, connect_control_ports]

theorem destructor_instance (s : Host) :
    (destructor s).self = { s.self with instance_ := none } := by
  obtain ⟨w, calls, log⟩ := s
  obtain ⟨tag, uri, world, plugin, inst, found, np, nin, nout, ns, ports⟩ := w
  cases inst <;> cases world <;> simp [destructor]

theorem create_ports_instance (init : Port) (plugin : LilvPlugin) (s : Host) :
    (create_ports init plugin s).self.instance_ = s.self.instance_ ∧
    (create_ports init plugin s).calls = s.calls := by
  simp [create_ports]

theorem constructor_instance (lilv : Lilv) (init : Port) (log_tag plugin_uri : String) :
    (constructor lilv init log_tag plugin_uri).self.instance_ = none ∧
    (constructor lilv init log_tag plugin_uri).calls = [] := by
  unfold constructor
  simp only []
  split
  · exact ⟨rfl, rfl⟩
  · split
    · exact ⟨rfl, rfl⟩
    · split
      · exact ⟨rfl, rfl⟩
      · rw [(create_ports_instance _ _ _).1, (create_ports_instance _ _ _).2]
        exact ⟨rfl, rfl⟩

theorem run_of_none (s : Host) (h : s.self.instance_ = none) : run s = s := by
  simp [run, h]

/-- C9: the destructor of a wrapper that holds an instance `h` makes, after the
calls already made, native deactivate on `h`, then native free on `h`, once
each, and then only the call that frees the world; the destructor of a wrapper
that holds no instance makes no instance call at all (only the world is
freed); in both cases the slot is left Uninstantiated (instance null) with
every other member as it was.  In particular `create_instance`, successful or
not, followed by destruction leaves the slot Uninstantiated. -/
theorem destructor_releases_instance (s : Host) :
    (∀ h, s.self.instance_ = some h →
      (destructor s).calls =
        s.calls ++ [NativeCall.instance_deactivate (some h), NativeCall.instance_free (some h)] ++
          world_calls s.self) ∧
    (s.self.instance_ = none → (destructor s).calls = s.calls ++ world_calls s.self) ∧
    (destructor s).self = { s.self with instance_ := none } ∧
    (destructor s).self.instance_ = none ∧
    (∀ (lilv : Lilv) (rate : Nat),
      (destructor (create_instance lilv s rate).2).self.instance_ = none) := by
  refine ⟨?_, ?_, destructor_instance s, ?_, ?_⟩
  · intro h hh
    obtain ⟨w, calls, log⟩ := s
    obtain ⟨tag, uri, world, plugin, inst, found, np, nin, nout, ns, ports⟩ := w
    simp only at hh
    subst hh
    cases world <;> simp [destructor, world_calls]
  · intro hh
    obtain ⟨w, calls, log⟩ := s
    obtain ⟨tag, uri, world, plugin, inst, found, np, nin, nout, ns, ports⟩ := w
    simp only at hh
    subst hh
    cases world <;> simp [destructor, world_calls]
  · rw [destructor_instance]
  · intro lilv rate
    rw [destructor_instance]

/-- C9, at a concrete wrapper: destroying `gain_active`, which holds handle 1. -/
theorem destructor_releases_instance_witness :
    gain_active.self.instance_ = some 1 ∧
    (destructor gain_active).calls =
      gain_active.calls ++
        [NativeCall.instance_deactivate (some 1), NativeCall.instance_free (some 1)] ++
        world_calls gain_active.self ∧
    gain_host.self.instance_ = none ∧
    (destructor gain_host).calls = gain_host.calls ++ world_calls gain_host.self :=
  ⟨by decide, (destructor_releases_instance gain_active).1 1 (by decide), by decide,
    (destructor_releases_instance gain_host).2.1 (by decide)⟩

/-- C10 fails as stated: on the Active slot `gain_active` a further `activate`
makes a native activate call, two `activate` calls differ from one, and two
`deactivate` calls make two native deactivate calls. -/
theorem activate_not_idempotent :
    (create_instance gain_lilv gain_host 48000).1 = true ∧
    (activate gain_active).calls =
      gain_active.calls ++ [NativeCall.instance_activate (some 1)] ∧
    activate gain_active ≠ gain_active ∧
    activate (activate gain_active) ≠ activate gain_active ∧
    (deactivate (deactivate gain_active)).calls =
      gain_active.calls ++
        [NativeCall.instance_deactivate (some 1), NativeCall.instance_deactivate (some 1)] ∧
    deactivate (deactivate gain_active) ≠ deactivate gain_active := by
  decide

/-- C10, amended: `activate` and `deactivate` keep no record of the state: each
call makes exactly one native activate (deactivate) call on the held handle,
after the calls already made, and changes no member of the wrapper and no log
line; so two consecutive calls make two native calls. -/
theorem activate_deactivate_calls (s : Host) :
    (activate s).self = s.self ∧ (activate s).log = s.log ∧
    (activate s).calls = s.calls ++ [NativeCall.instance_activate s.self.instance_] ∧
    (deactivate s).self = s.self ∧ (deactivate s).log = s.log ∧
    (deactivate s).calls = s.calls ++ [NativeCall.instance_deactivate s.self.instance_] ∧
    (activate (activate s)).calls =
      s.calls ++ [NativeCall.instance_activate s.self.instance_,
                  NativeCall.instance_activate s.self.instance_] ∧
    (deactivate (deactivate s)).calls =
      s.calls ++ [NativeCall.instance_deactivate s.self.instance_,
                  NativeCall.instance_deactivate s.self.instance_] := by
  simp [activate, deactivate]

/-- C5 fails as stated: after a successful `create_instance` and a `deactivate`
the slot is not Active, yet `run` makes the native run call. -/
theorem run_after_deactivate_calls_native :
    (create_instance gain_lilv gain_host 48000).1 = true ∧
    (run (deactivate gain_active)).calls =
      (deactivate gain_active).calls ++ [NativeCall.instance_run (some 1) 0] ∧
    run (deactivate gain_active) ≠ deactivate gain_active := by
  decide

/-- C5, amended: `run` is guarded by the instance pointer only.  It never changes
a member or logs; with no instance held it is a no-op (so it is on a freshly
constructed wrapper and after a failed `create_instance`); with an instance `h`
held it makes exactly one native run call on `h` for `n_samples` frames, and
this is still so after `deactivate` following a successful `create_instance`. -/
theorem run_guarded_by_instance (s : Host) :
    (run s).self = s.self ∧ (run s).log = s.log ∧
    (s.self.instance_ = none → run s = s) ∧
    (∀ h, s.self.instance_ = some h →
      (run s).calls = s.calls ++ [NativeCall.instance_run (some h) s.self.n_samples]) ∧
    (∀ (lilv : Lilv) (init : Port) (log_tag plugin_uri : String),
      run (constructor lilv init log_tag plugin_uri) = constructor lilv init log_tag plugin_uri) ∧
    (∀ (lilv : Lilv) (rate : Nat), (create_instance lilv s rate).1 = false →
      run (create_instance lilv s rate).2 = (create_instance lilv s rate).2) ∧
    (∀ (lilv : Lilv) (rate : Nat), (create_instance lilv s rate).1 = true →
      ∃ h, (create_instance lilv s rate).2.self.instance_ = some h ∧
        (run (deactivate (create_instance lilv s rate).2)).calls =
          (deactivate (create_instance lilv s rate).2).calls ++
            [NativeCall.instance_run (some h) s.self.n_samples]) := by
  refine ⟨?_, ?_, run_of_none s, ?_, ?_, ?_, ?_⟩
  · unfold run; split <;> rfl
  · unfold run; split <;> rfl
  · intro h hh
    simp [run, hh]
  · intro lilv init log_tag plugin_uri
    exact run_of_none _ (constructor_instance lilv init log_tag plugin_uri).1
  · intro lilv rate hf
    apply run_of_none
    rw [create_instance_eq] at hf ⊢
    cases hr : lilv.plugin_instantiate (s.calls ++ release_calls s.self) s.self.plugin rate with
    | none => rfl
    | some h => rw [hr] at hf; simp at hf
  · intro lilv rate ht
    rw [create_instance_eq] at ht ⊢
    cases hr : lilv.plugin_instantiate (s.calls ++ release_calls s.self) s.self.plugin rate with
    | none => rw [hr] at ht; simp at ht
    | some h => exact ⟨h, rfl, by simp [run, deactivate]⟩

/-- C5, amended, at concrete wrappers: `gain_host` holds no instance, `gain_active`
holds handle 1; a `create_instance` at rate 0 fails, one at 48000 succeeds. -/
theorem run_guarded_by_instance_witness :
    run gain_host = gain_host ∧
    (run gain_active).calls = gain_active.calls ++ [NativeCall.instance_run (some 1) 0] ∧
    run (create_instance gain_lilv gain_host 0).2 = (create_instance gain_lilv gain_host 0).2 ∧
    (∃ h, (create_instance gain_lilv gain_host 48000).2.self.instance_ = some h ∧
        (run (deactivate (create_instance gain_lilv gain_host 48000).2)).calls =
          (deactivate (create_instance gain_lilv gain_host 48000).2).calls ++
            [NativeCall.instance_run (some h) gain_host.self.n_samples]) :=
  ⟨(run_guarded_by_instance gain_host).2.2.1 (by decide),
    (run_guarded_by_instance gain_active).2.2.2.1 1 (by decide),
    (run_guarded_by_instance gain_host).2.2.2.2.2.1 gain_lilv 0 (by decide),
    (run_guarded_by_instance gain_host).2.2.2.2.2.2 gain_lilv 48000 (by decide)⟩

/-- C3 fails as stated: `gain_active` holds the live instance 1; a
`create_instance` whose native instantiation returns no handle (rate 0) reports
failure, but the wrapper no longer holds instance 1, which has been freed. -/
theorem create_instance_failure_frees_previous :
    gain_active.self.instance_ = some 1 ∧
    gain_lilv.plugin_instantiate (gain_active.calls ++ release_calls gain_active.self)
      gain_active.self.plugin 0 = none ∧
    (create_instance gain_lilv gain_active 0).1 = false ∧
    (create_instance gain_lilv gain_active 0).2.self.instance_ = none ∧
    (create_instance gain_lilv gain_active 0).2.calls =
      gain_active.calls ++
        [NativeCall.instance_deactivate (some 1), NativeCall.instance_free (some 1),
         NativeCall.plugin_instantiate 0 none] := by
  decide

/-- C3, amended: whenever the native instantiation call returns no handle,
`create_instance` returns false and leaves the slot Uninstantiated (instance
null), every other member unchanged, one warning logged.  A slot that held no
instance is therefore unchanged, the only native call being the failed
instantiation; an instance held before has been deactivated and freed before
the instantiation was attempted, and is not restored. -/
theorem create_instance_failure (lilv : Lilv) (s : Host) (rate : Nat)
    (hnull : lilv.plugin_instantiate (s.calls ++ release_calls s.self) s.self.plugin rate = none) :
    (create_instance lilv s rate).1 = false ∧
    (create_instance lilv s rate).2.self = { s.self with instance_ := none } ∧
    (create_instance lilv s rate).2.self.instance_ = none ∧
    (create_instance lilv s rate).2.calls =
      s.calls ++ release_calls s.self ++ [NativeCall.plugin_instantiate rate none] ∧
    (s.self.instance_ = none →
      (create_instance lilv s rate).2.self = s.self ∧
      (create_instance lilv s rate).2.calls = s.calls ++ [NativeCall.plugin_instantiate rate none]) ∧
    (∀ h, s.self.instance_ = some h →
      (create_instance lilv s rate).2.calls =
        s.calls ++ [NativeCall.instance_deactivate (some h), NativeCall.instance_free (some h),
                    NativeCall.plugin_instantiate rate none]) := by
  rw [create_instance_eq, hnull]
  refine ⟨rfl, rfl, rfl, rfl, ?_, ?_⟩
  · intro hn
    obtain ⟨w, calls, log⟩ := s
    obtain ⟨tag, uri, world, plugin, inst, found, np, nin, nout, ns, ports⟩ := w
    simp only at hn
    subst hn
    simp [release_calls]
  · intro h hh
    simp [release_calls, hh]

/-- C3, amended, at a concrete wrapper: the failing `create_instance` at rate 0 on
`gain_active`. -/
theorem create_instance_failure_witness :
    (create_instance gain_lilv gain_active 0).1 = false ∧
    (create_instance gain_lilv gain_active 0).2.self.instance_ = none :=
  ⟨(create_instance_failure gain_lilv gain_active 0 (by decide)).1,
    (create_instance_failure gain_lilv gain_active 0 (by decide)).2.2.1⟩

/-! ## Buffer binding: `connect_data_ports` -/

theorem index_rank_head (p : Port) (ps : List Port)
    (h : ∀ q ∈ ps, p.index < q.index) : index_rank (p :: ps) p = 0 := by
  unfold index_rank
  rw [List.countP_cons]
  have h0 : ps.countP (fun q =>
      decide (q.type = PortType.TYPE_AUDIO) && (q.is_input == p.is_input) &&
        decide (q.index < p.index)) = 0 := by
    rw [List.countP_eq_zero]
    intro q hq
    have := h q hq
    simp only [Bool.and_eq_true, decide_eq_true_eq, not_and, not_lt]
    intro _
    omega
  simp [h0]

theorem index_rank_tail (p q : Port) (ps : List Port) (h : p.index < q.index) :
    index_rank (p :: ps) q =
      index_rank ps q +
        if p.type = PortType.TYPE_AUDIO ∧ p.is_input = q.is_input then 1 else 0 := by
  unfold index_rank
  rw [List.countP_cons]
  simp [h]

/-- The loop of `connect_data_ports` on a table in increasing index order, started
with counters `ci` and `co`, makes the calls of the binding rule with the
ranks shifted by the counters. -/
theorem connect_data_ports_loop_eq (inst : Option Nat) (ps : List Port) :
    ∀ (ci co : Nat), ps.Pairwise (fun a b => a.index < b.index) →
      connect_data_ports_loop inst ps ci co =
        ps.filterMap (fun p =>
          if p.type = PortType.TYPE_AUDIO then
            (audio_buffer p.is_input ((if p.is_input then ci else co) + index_rank ps p)).map
              (NativeCall.instance_connect_port inst p.index)
          else none) := by
  induction ps with
  | nil => intro ci co _; simp [connect_data_ports_loop]
  | cons p ps ih =>
    intro ci co hs
    rw [List.pairwise_cons] at hs
    obtain ⟨hlt, hs⟩ := hs
    have htail : ∀ (ci2 co2 : Nat),
        (ci2 = if p.type = PortType.TYPE_AUDIO ∧ p.is_input = true then ci + 1 else ci) →
        (co2 = if p.type = PortType.TYPE_AUDIO ∧ p.is_input = false then co + 1 else co) →
        ps.filterMap (fun q =>
          if q.type = PortType.TYPE_AUDIO then
            (audio_buffer q.is_input
              ((if q.is_input then ci else co) + index_rank (p :: ps) q)).map
              (NativeCall.instance_connect_port inst q.index)
          else none) = connect_data_ports_loop inst ps ci2 co2 := by
      intro ci2 co2 h1 h2
      rw [ih ci2 co2 hs]
      apply List.filterMap_congr
      intro q hq
      rw [index_rank_tail p q ps (hlt q hq), h1, h2]
      by_cases ha : p.type = PortType.TYPE_AUDIO <;> by_cases hq2 : q.type = PortType.TYPE_AUDIO <;>
        cases hpi : p.is_input <;> cases hqi : q.is_input <;> simp [ha, hq2] <;> congr 2 <;> omega
    rw [connect_data_ports_loop, List.filterMap_cons, index_rank_head p ps hlt,
      htail _ _ rfl rfl]
    by_cases ha : p.type = PortType.TYPE_AUDIO
    · cases hpi : p.is_input
      · rcases co with _ | _ | co <;> simp [ha, hpi, audio_buffer]
      · rcases ci with _ | _ | ci <;> simp [ha, hpi, audio_buffer]
    · simp [ha]

theorem index_injective (ps : List Port) (hs : ps.Pairwise (fun a b => a.index < b.index)) :
    ∀ p ∈ ps, ∀ q ∈ ps, p.index = q.index → p = q := by
  have h2 : ps.Pairwise (fun a b => a.index = b.index → a = b) := by
    apply List.Pairwise.imp _ hs
    intro a b hab he
    omega
  have hsym : Symmetric (fun a b : Port => a.index = b.index → a = b) :=
    fun a b hab he => (hab he.symm).symm
  intro p hp q hq
  exact List.Pairwise.forall_of_forall hsym (fun a _ _ => rfl) h2 hp hq

/-- The call list of `connect_data_ports` on a table in increasing index order is
the list of the binding rule; membership of a connect call in it, port by
port. -/
theorem connect_data_ports_calls_binding (w : Lv2Wrapper)
    (hs : w.ports.Pairwise (fun a b => a.index < b.index)) :
    connect_data_ports_calls w = audio_binding w.instance_ w.ports ∧
    (∀ p ∈ w.ports, ∀ (inst : Option Nat) (d : DataPtr),
      NativeCall.instance_connect_port inst p.index d ∈ connect_data_ports_calls w ↔
        inst = w.instance_ ∧ p.type = PortType.TYPE_AUDIO ∧
          audio_buffer p.is_input (index_rank w.ports p) = some d) ∧
    (∀ p ∈ w.ports, (p.type ≠ PortType.TYPE_AUDIO ∨ 2 ≤ index_rank w.ports p) →
      ∀ (inst : Option Nat) (d : DataPtr),
        NativeCall.instance_connect_port inst p.index d ∉ connect_data_ports_calls w) ∧
    (∀ c ∈ connect_data_ports_calls w, ∃ p ∈ w.ports, ∃ d,
      c = NativeCall.instance_connect_port w.instance_ p.index d) := by
  have heq : connect_data_ports_calls w = audio_binding w.instance_ w.ports := by
    unfold connect_data_ports_calls audio_binding
    rw [connect_data_ports_loop_eq _ _ 0 0 hs]
    apply List.filterMap_congr
    intro q _
    cases q.is_input <;> simp
  have hmem : ∀ p ∈ w.ports, ∀ (inst : Option Nat) (d : DataPtr),
      NativeCall.instance_connect_port inst p.index d ∈ connect_data_ports_calls w ↔
        inst = w.instance_ ∧ p.type = PortType.TYPE_AUDIO ∧
          audio_buffer p.is_input (index_rank w.ports p) = some d := by
    intro p hp inst d
    rw [heq]
    unfold audio_binding
    rw [List.mem_filterMap]
    constructor
    · rintro ⟨q, hq, hfq⟩
      by_cases ha : q.type = PortType.TYPE_AUDIO
      · rw [if_pos ha, Option.map_eq_some'] at hfq
        obtain ⟨d2, hd2, hc⟩ := hfq
        injection hc with h1 h2 h3
        have hqp : q = p := index_injective w.ports hs q hq p hp h2
        subst hqp
        subst h3
        exact ⟨h1.symm, ha, hd2⟩
      · rw [if_neg ha] at hfq
        exact absurd hfq (by simp)
    · rintro ⟨hi, ha, hd⟩
      exact ⟨p, hp, by rw [if_pos ha, hd, hi]; rfl⟩
  refine ⟨heq, hmem, ?_, ?_⟩
  · intro p hp hno inst d hc
    obtain ⟨_, ha, hd⟩ := (hmem p hp inst d).1 hc
    rcases hno with hno | hno
    · exact hno ha
    · cases hpi : p.is_input <;> rw [hpi] at hd <;>
        rcases hr : index_rank w.ports p with _ | _ | k <;> rw [hr] at hd hno <;>
        first | omega | simp [audio_buffer] at hd
  · intro c hc
    rw [heq] at hc
    unfold audio_binding at hc
    rw [List.mem_filterMap] at hc
    obtain ⟨q, hq, hfq⟩ := hc
    by_cases ha : q.type = PortType.TYPE_AUDIO
    · rw [if_pos ha, Option.map_eq_some'] at hfq
      obtain ⟨d2, _, hc⟩ := hfq
      exact ⟨q, hq, d2, hc.symm⟩
    · rw [if_neg ha] at hfq
      exact absurd hfq (by simp)

/-- The table `create_ports` produces is in strictly increasing index order. -/
theorem create_ports_sorted (init : Port) (plugin : LilvPlugin) (s : Host) :
    (create_ports init plugin s).self.ports.Pairwise (fun a b => a.index < b.index) := by
  have h : ((create_ports init plugin s).self.ports.map Port.index).Pairwise (fun a b => a < b) := by
    simp only [create_ports]
    rw [create_ports_loop_index _ _ _ _ _ (resize_length _ _ _), ← List.range_eq_range']
    exact List.pairwise_lt_range _
  rw [List.pairwise_map] at h
  exact h

theorem connect_data_ports_loop_no_audio (inst : Option Nat) (ps : List Port) :
    ∀ (ci co : Nat), ps.countP is_audio_input = 0 → ps.countP is_audio_output = 0 →
      connect_data_ports_loop inst ps ci co = [] := by
  induction ps with
  | nil => intro ci co _ _; rfl
  | cons p ps ih =>
    intro ci co hin hout
    rw [List.countP_cons] at hin hout
    rw [connect_data_ports_loop]
    by_cases ha : p.type = PortType.TYPE_AUDIO
    · cases hpi : p.is_input
      · simp [is_audio_output, ha, hpi] at hout
      · simp [is_audio_input, ha, hpi] at hin
    · rw [if_neg ha]
      exact ih ci co (by omega) (by omega)

theorem connect_data_ports_loop_one_out (inst : Option Nat) (ps : List Port) :
    ∀ (ci : Nat), ps.countP is_audio_input = 0 → ps.countP is_audio_output = 1 →
      ∃ q ∈ ps, is_audio_output q = true ∧
        connect_data_ports_loop inst ps ci 0 =
          [NativeCall.instance_connect_port inst q.index DataPtr.left_out] := by
  induction ps with
  | nil => intro ci _ hout; simp at hout
  | cons p ps ih =>
    intro ci hin hout
    rw [List.countP_cons] at hin hout
    rw [connect_data_ports_loop]
    by_cases ha : p.type = PortType.TYPE_AUDIO
    · cases hpi : p.is_input
      · have hq : is_audio_output p = true := by simp [is_audio_output, ha, hpi]
        rw [if_pos hq] at hout
        refine ⟨p, List.mem_cons_self _ _, hq, ?_⟩
        rw [connect_data_ports_loop_no_audio inst ps ci 1 (by omega) (by omega)]
        simp [ha, hpi]
      · simp [is_audio_input, ha, hpi] at hin
    · have h1 : is_audio_output p = false := by simp [is_audio_output, ha]
      rw [h1] at hout
      obtain ⟨q, hq, hqo, hc⟩ := ih ci (by omega) (by simpa using hout)
      exact ⟨q, List.mem_cons_of_mem _ hq, hqo, by rw [if_neg ha]; exact hc⟩

theorem connect_data_ports_loop_one_in (inst : Option Nat) (ps : List Port) :
    ∀ (co : Nat), ps.countP is_audio_input = 1 → ps.countP is_audio_output = 0 →
      ∃ q ∈ ps, is_audio_input q = true ∧
        connect_data_ports_loop inst ps 0 co =
          [NativeCall.instance_connect_port inst q.index DataPtr.left_in] := by
  induction ps with
  | nil => intro co hin _; simp at hin
  | cons p ps ih =>
    intro co hin hout
    rw [List.countP_cons] at hin hout
    rw [connect_data_ports_loop]
    by_cases ha : p.type = PortType.TYPE_AUDIO
    · cases hpi : p.is_input
      · simp [is_audio_output, ha, hpi] at hout
      · have hq : is_audio_input p = true := by simp [is_audio_input, ha, hpi]
        rw [if_pos hq] at hin
        refine ⟨p, List.mem_cons_self _ _, hq, ?_⟩
        rw [connect_data_ports_loop_no_audio inst ps 1 co (by omega) (by omega)]
        simp [ha, hpi]
    · have h1 : is_audio_input p = false := by simp [is_audio_input, ha]
      rw [h1] at hin
      obtain ⟨q, hq, hqo, hc⟩ := ih co (by simpa using hin) (by omega)
      exact ⟨q, List.mem_cons_of_mem _ hq, hqo, by rw [if_neg ha]; exact hc⟩

theorem connect_data_ports_loop_mono (inst : Option Nat) (ps : List Port) :
    ps.countP is_audio_input = 1 → ps.countP is_audio_output = 1 →
      ∃ p ∈ ps, ∃ q ∈ ps, is_audio_input p = true ∧ is_audio_output q = true ∧
        (connect_data_ports_loop inst ps 0 0 =
            [NativeCall.instance_connect_port inst p.index DataPtr.left_in,
             NativeCall.instance_connect_port inst q.index DataPtr.left_out] ∨
         connect_data_ports_loop inst ps 0 0 =
            [NativeCall.instance_connect_port inst q.index DataPtr.left_out,
             NativeCall.instance_connect_port inst p.index DataPtr.left_in]) := by
  induction ps with
  | nil => intro hin _; simp at hin
  | cons a ps ih =>
    intro hin hout
    rw [List.countP_cons] at hin hout
    rw [connect_data_ports_loop]
    by_cases ha : a.type = PortType.TYPE_AUDIO
    · cases hpi : a.is_input
      · have hq : is_audio_output a = true := by simp [is_audio_output, ha, hpi]
        have hq2 : is_audio_input a = false := by simp [is_audio_input, ha, hpi]
        rw [if_pos hq] at hout
        rw [hq2] at hin
        obtain ⟨p, hp, hpin, hc⟩ :=
          connect_data_ports_loop_one_in inst ps 1 (by simpa using hin) (by omega)
        refine ⟨p, List.mem_cons_of_mem _ hp, a, List.mem_cons_self _ _, hpin, hq, Or.inr ?_⟩
        simp [ha, hpi, hc]
      · have hq : is_audio_input a = true := by simp [is_audio_input, ha, hpi]
        have hq2 : is_audio_output a = false := by simp [is_audio_output, ha, hpi]
        rw [if_pos hq] at hin
        rw [hq2] at hout
        obtain ⟨q, hqm, hqout, hc⟩ :=
          connect_data_ports_loop_one_out inst ps 1 (by omega) (by simpa using hout)
        refine ⟨a, List.mem_cons_self _ _, q, List.mem_cons_of_mem _ hqm, hq, hqout, Or.inl ?_⟩
        simp [ha, hpi, hc]
    · have h1 : is_audio_input a = false := by simp [is_audio_input, ha]
      have h2 : is_audio_output a = false := by simp [is_audio_output, ha]
      rw [h1] at hin
      rw [h2] at hout
      obtain ⟨p, hp, q, hq, hpin, hqout, hc⟩ := ih (by simpa using hin) (by simpa using hout)
      exact ⟨p, List.mem_cons_of_mem _ hp, q, List.mem_cons_of_mem _ hq, hpin, hqout,
        by rw [if_neg ha]; exact hc⟩

/-- The call list of `connect_data_ports` on a table with exactly one audio input
and exactly one audio output entry. -/
theorem connect_data_ports_calls_mono (w : Lv2Wrapper)
    (hin : w.ports.countP is_audio_input = 1) (hout : w.ports.countP is_audio_output = 1) :
    ∃ p ∈ w.ports, ∃ q ∈ w.ports, is_audio_input p = true ∧ is_audio_output q = true ∧
      (connect_data_ports_calls w =
          [NativeCall.instance_connect_port w.instance_ p.index DataPtr.left_in,
           NativeCall.instance_connect_port w.instance_ q.index DataPtr.left_out] ∨
       connect_data_ports_calls w =
          [NativeCall.instance_connect_port w.instance_ q.index DataPtr.left_out,
           NativeCall.instance_connect_port w.instance_ p.index DataPtr.left_in]) ∧
      (connect_data_ports_calls w).length = 2 ∧
      (∀ (inst : Option Nat) (i : Nat),
        NativeCall.instance_connect_port inst i DataPtr.right_in ∉ connect_data_ports_calls w ∧
        NativeCall.instance_connect_port inst i DataPtr.right_out ∉ connect_data_ports_calls w) := by
  obtain ⟨p, hp, q, hq, hpin, hqout, hc⟩ :=
    connect_data_ports_loop_mono w.instance_ w.ports hin hout
  refine ⟨p, hp, q, hq, hpin, hqout, hc, ?_, ?_⟩
  · unfold connect_data_ports_calls
    rcases hc with hc | hc <;> rw [hc] <;> rfl
  · intro inst i
    unfold connect_data_ports_calls
    rcases hc with hc | hc <;> rw [hc] <;> simp

theorem connect_data_ports_appends (s : Host) :
    (connect_data_ports s).calls = s.calls ++ connect_data_ports_calls s.self ∧
    (connect_data_ports s).calls.drop s.calls.length = connect_data_ports_calls s.self ∧
    (connect_data_ports s).self = s.self := by
  refine ⟨rfl, ?_, rfl⟩
  simp [connect_data_ports]

/-- C1: on every wrapper whose port table is in increasing index order,
`connect_data_ports` changes no member and makes, after the native calls
already made, exactly the connect calls of the binding rule, in index order
and on the held instance: the lowest-index audio input port with `left_in`, the
second-lowest with `right_in`, the lowest-index audio output port with
`left_out`, the second-lowest with `right_out`.  Among the calls it makes, a port
of the table receives a connect call with a buffer exactly when it is an
audio port of rank 0 or 1 in its direction and the buffer is the one the rule
selects; a port that is not audio, or is the third or a later audio port of
its direction, receives no connect call; and every call it makes is a connect
call for a port of the table.  Every table that `create_ports` produced is in
increasing index order, so all this holds for it. -/
theorem connect_data_ports_binding (s : Host) :
    (s.self.ports.Pairwise (fun a b => a.index < b.index) →
      (connect_data_ports s).calls =
        s.calls ++ audio_binding s.self.instance_ s.self.ports ∧
      (connect_data_ports s).self = s.self ∧
      (∀ p ∈ s.self.ports, ∀ (inst : Option Nat) (d : DataPtr),
        NativeCall.instance_connect_port inst p.index d ∈
            (connect_data_ports s).calls.drop s.calls.length ↔
          inst = s.self.instance_ ∧ p.type = PortType.TYPE_AUDIO ∧
            audio_buffer p.is_input (index_rank s.self.ports p) = some d) ∧
      (∀ p ∈ s.self.ports,
        (p.type ≠ PortType.TYPE_AUDIO ∨ 2 ≤ index_rank s.self.ports p) →
        ∀ (inst : Option Nat) (d : DataPtr),
          NativeCall.instance_connect_port inst p.index d ∉
            (connect_data_ports s).calls.drop s.calls.length) ∧
      (∀ c ∈ (connect_data_ports s).calls.drop s.calls.length, ∃ p ∈ s.self.ports, ∃ d,
        c = NativeCall.instance_connect_port s.self.instance_ p.index d)) ∧
    (∀ (init : Port) (plugin : LilvPlugin) (t : Host),
      s.self.ports = (create_ports init plugin t).self.ports →
      s.self.ports.Pairwise (fun a b => a.index < b.index) ∧
      (connect_data_ports s).calls =
        s.calls ++ audio_binding s.self.instance_ s.self.ports) := by
  have happ := connect_data_ports_appends s
  have main : s.self.ports.Pairwise (fun a b => a.index < b.index) →
      (connect_data_ports s).calls =
        s.calls ++ audio_binding s.self.instance_ s.self.ports := by
    intro hs
    rw [happ.1, (connect_data_ports_calls_binding s.self hs).1]
  constructor
  · intro hs
    have h := connect_data_ports_calls_binding s.self hs
    rw [happ.2.1]
    exact ⟨main hs, happ.2.2, h.2.1, h.2.2.1, h.2.2.2⟩
  · intro init plugin t ht
    have hs : s.self.ports.Pairwise (fun a b => a.index < b.index) := by
      rw [ht]
      exact create_ports_sorted init plugin t
    exact ⟨hs, main hs⟩

/-- C1, at a concrete wrapper: `surround_active` has three audio inputs (indices 0,
2, 4) and three audio outputs (1, 3, 5); the first two of each direction are
connected, the third ones and the control port 6 are not. -/
theorem connect_data_ports_binding_witness :
    surround_active.self.ports.Pairwise (fun a b => a.index < b.index) ∧
    surround_active.self.ports.countP is_audio_input = 3 ∧
    surround_active.self.ports.countP is_audio_output = 3 ∧
    (connect_data_ports surround_active).calls =
      surround_active.calls ++
        [NativeCall.instance_connect_port (some 1) 0 DataPtr.left_in,
         NativeCall.instance_connect_port (some 1) 1 DataPtr.left_out,
         NativeCall.instance_connect_port (some 1) 2 DataPtr.right_in,
         NativeCall.instance_connect_port (some 1) 3 DataPtr.right_out] ∧
    (∀ c ∈ (connect_data_ports surround_active).calls.drop surround_active.calls.length,
      ∃ p ∈ surround_active.self.ports, ∃ d,
        c = NativeCall.instance_connect_port surround_active.self.instance_ p.index d) :=
  ⟨by decide, by decide, by decide,
    (((connect_data_ports_binding surround_active).1 (by decide)).1).trans (by decide),
    ((connect_data_ports_binding surround_active).1 (by decide)).2.2.2.2⟩

/-- C8: on every wrapper whose port table has exactly one audio input port `p` and
exactly one audio output port `q`, `connect_data_ports` changes no member and
makes, after the native calls already made, exactly two native calls: one
connects `p` with `left_in`, the other connects `q` with `left_out` (in table
order); none of the calls it makes passes `right_in` or `right_out`. -/
theorem connect_data_ports_mono (s : Host)
    (hin : s.self.ports.countP is_audio_input = 1)
    (hout : s.self.ports.countP is_audio_output = 1) :
    ∃ p ∈ s.self.ports, ∃ q ∈ s.self.ports, is_audio_input p = true ∧ is_audio_output q = true ∧
      ((connect_data_ports s).calls =
          s.calls ++
            [NativeCall.instance_connect_port s.self.instance_ p.index DataPtr.left_in,
             NativeCall.instance_connect_port s.self.instance_ q.index DataPtr.left_out] ∨
       (connect_data_ports s).calls =
          s.calls ++
            [NativeCall.instance_connect_port s.self.instance_ q.index DataPtr.left_out,
             NativeCall.instance_connect_port s.self.instance_ p.index DataPtr.left_in]) ∧
      (connect_data_ports s).calls.length = s.calls.length + 2 ∧
      (connect_data_ports s).self = s.self ∧
      (∀ (inst : Option Nat) (i : Nat),
        NativeCall.instance_connect_port inst i DataPtr.right_in ∉
          (connect_data_ports s).calls.drop s.calls.length ∧
        NativeCall.instance_connect_port inst i DataPtr.right_out ∉
          (connect_data_ports s).calls.drop s.calls.length) := by
  have happ := connect_data_ports_appends s
  obtain ⟨p, hp, q, hq, hpin, hqout, hc, hlen, hright⟩ :=
    connect_data_ports_calls_mono s.self hin hout
  refine ⟨p, hp, q, hq, hpin, hqout, ?_, ?_, happ.2.2, ?_⟩
  · rw [happ.1]
    rcases hc with hc | hc
    · left; rw [hc]
    · right; rw [hc]
  · rw [happ.1, List.length_append, hlen]
  · rw [happ.2.1]
    exact hright

/-- C8, at a concrete wrapper: `gain_active` has one audio input (index 0) and one
audio output (index 1). -/
theorem connect_data_ports_mono_witness :
    gain_active.self.ports.countP is_audio_input = 1 ∧
    gain_active.self.ports.countP is_audio_output = 1 ∧
    (connect_data_ports gain_active).calls =
      gain_active.calls ++
        [NativeCall.instance_connect_port (some 1) 0 DataPtr.left_in,
         NativeCall.instance_connect_port (some 1) 1 DataPtr.left_out] ∧
    (∃ p ∈ gain_active.self.ports, ∃ q ∈ gain_active.self.ports,
      is_audio_input p = true ∧ is_audio_output q = true ∧
      (connect_data_ports gain_active).calls.length = gain_active.calls.length + 2) :=
  ⟨by decide, by decide, by decide,
    (connect_data_ports_mono gain_active (by decide) (by decide)).elim
      (fun p hp => ⟨p, hp.1, hp.2.elim (fun q hq => ⟨q, hq.1, hq.2.1, hq.2.2.1, hq.2.2.2.2.1⟩)⟩)⟩

/-! ## Control-port binding inside `create_instance` -/

theorem mem_connect_control_ports_loop (inst : Option Nat) (ps : List Port) :
    ∀ (pos0 : Nat) (c : NativeCall),
      c ∈ connect_control_ports_loop inst pos0 ps ↔
        ∃ k p, ps[k]? = some p ∧ p.type = PortType.TYPE_CONTROL ∧
          c = NativeCall.instance_connect_port inst p.index (DataPtr.port_value (pos0 + k)) := by
  induction ps with
  | nil => intro pos0 c; simp [connect_control_ports_loop]
  | cons a ps ih =>
    intro pos0 c
    rw [connect_control_ports_loop, List.mem_append, ih (pos0 + 1) c]
    constructor
    · rintro (hh | ⟨k, p, hk, hp, hc⟩)
      · by_cases ha : a.type = PortType.TYPE_CONTROL
        · rw [if_pos ha, List.mem_singleton] at hh
          exact ⟨0, a, List.getElem?_cons_zero, ha, by simpa using hh⟩
        · rw [if_neg ha] at hh
          exact absurd hh (List.not_mem_nil _)
      · refine ⟨k + 1, p, by simpa using hk, hp, ?_⟩
        rw [hc]
        congr 2
        omega
    · rintro ⟨k, p, hk, hp, hc⟩
      cases k with
      | zero =>
        left
        simp only [List.getElem?_cons_zero, Option.some.injEq] at hk
        subst hk
        rw [if_pos hp, List.mem_singleton]
        simpa using hc
      | succ k =>
        right
        refine ⟨k, p, by simpa using hk, hp, ?_⟩
        rw [hc]
        congr 2
        omega

theorem count_connect_control_ports_loop (inst : Option Nat) (ps : List Port) :
    ∀ (pos0 k : Nat) (p : Port), ps[k]? = some p → p.type = PortType.TYPE_CONTROL →
      (connect_control_ports_loop inst pos0 ps).count
        (NativeCall.instance_connect_port inst p.index (DataPtr.port_value (pos0 + k))) = 1 := by
  induction ps with
  | nil => intro pos0 k p hk; simp at hk
  | cons a ps ih =>
    intro pos0 k p hk hp
    rw [connect_control_ports_loop, List.count_append]
    cases k with
    | zero =>
      simp only [List.getElem?_cons_zero, Option.some.injEq] at hk
      subst hk
      have htail : (connect_control_ports_loop inst (pos0 + 1) ps).count
          (NativeCall.instance_connect_port inst a.index (DataPtr.port_value (pos0 + 0))) = 0 := by
        rw [List.count_eq_zero, mem_connect_control_ports_loop]
        rintro ⟨k, q, _, _, hc⟩
        injection hc with _ _ h3
        injection h3 with h4
        omega
      rw [htail, if_pos hp]
      simp
    | succ k =>
      have hhead : (if a.type = PortType.TYPE_CONTROL then
            [NativeCall.instance_connect_port inst a.index (DataPtr.port_value pos0)]
          else []).count
          (NativeCall.instance_connect_port inst p.index (DataPtr.port_value (pos0 + (k + 1)))) = 0 := by
        rw [List.count_eq_zero]
        intro hm
        by_cases ha : a.type = PortType.TYPE_CONTROL
        · rw [if_pos ha, List.mem_singleton] at hm
          injection hm with _ _ h3
          injection h3 with h4
          omega
        · rw [if_neg ha] at hm
          exact absurd hm (List.not_mem_nil _)
      have h2 := ih (pos0 + 1) k p (by simpa using hk) hp
      have he : pos0 + 1 + k = pos0 + (k + 1) := by omega
      rw [he] at h2
      rw [hhead, h2]

theorem mem_connect_data_ports_loop (inst : Option Nat) (ps : List Port) :
    ∀ (ci co : Nat) (c : NativeCall), c ∈ connect_data_ports_loop inst ps ci co →
      ∃ p ∈ ps, p.type = PortType.TYPE_AUDIO ∧
        ∃ d ∈ [DataPtr.left_in, DataPtr.right_in, DataPtr.left_out, DataPtr.right_out],
          c = NativeCall.instance_connect_port inst p.index d := by
  induction ps with
  | nil => intro ci co c hc; simp [connect_data_ports_loop] at hc
  | cons a ps ih =>
    intro ci co c hc
    rw [connect_data_ports_loop] at hc
    have lift : (∃ p ∈ ps, p.type = PortType.TYPE_AUDIO ∧
        ∃ d ∈ [DataPtr.left_in, DataPtr.right_in, DataPtr.left_out, DataPtr.right_out],
          c = NativeCall.instance_connect_port inst p.index d) →
        ∃ p ∈ a :: ps, p.type = PortType.TYPE_AUDIO ∧
        ∃ d ∈ [DataPtr.left_in, DataPtr.right_in, DataPtr.left_out, DataPtr.right_out],
          c = NativeCall.instance_connect_port inst p.index d := by
      rintro ⟨p, hp, h⟩
      exact ⟨p, List.mem_cons_of_mem _ hp, h⟩
    by_cases ha : a.type = PortType.TYPE_AUDIO
    · rw [if_pos ha] at hc
      cases hpi : a.is_input
      · rw [hpi] at hc
        simp only [Bool.false_eq_true, if_false, List.mem_append] at hc
        rcases hc with hc | hc
        · refine ⟨a, List.mem_cons_self _ _, ha, ?_⟩
          by_cases h0 : co = 0
          · rw [if_pos h0, List.mem_singleton] at hc
            exact ⟨DataPtr.left_out, by simp, hc⟩
          · rw [if_neg h0] at hc
            by_cases h1 : co = 1
            · rw [if_pos h1, List.mem_singleton] at hc
              exact ⟨DataPtr.right_out, by simp, hc⟩
            · rw [if_neg h1] at hc
              exact absurd hc (List.not_mem_nil _)
        · exact lift (ih _ _ c hc)
      · rw [hpi] at hc
        simp only [if_true, List.mem_append] at hc
        rcases hc with hc | hc
        · refine ⟨a, List.mem_cons_self _ _, ha, ?_⟩
          by_cases h0 : ci = 0
          · rw [if_pos h0, List.mem_singleton] at hc
            exact ⟨DataPtr.left_in, by simp, hc⟩
          · rw [if_neg h0] at hc
            by_cases h1 : ci = 1
            · rw [if_pos h1, List.mem_singleton] at hc
              exact ⟨DataPtr.right_in, by simp, hc⟩
            · rw [if_neg h1] at hc
              exact absurd hc (List.not_mem_nil _)
        · exact lift (ih _ _ c hc)
    · rw [if_neg ha] at hc
      exact lift (ih _ _ c hc)

theorem release_calls_no_connect (w : Lv2Wrapper) (inst : Option Nat) (i : Nat) (d : DataPtr) :
    NativeCall.instance_connect_port inst i d ∉ release_calls w := by
  unfold release_calls
  cases w.instance_ <;> simp

/-- C2: a successful `create_instance` obtains a handle `h` and makes, after the
calls already made, exactly: the teardown of a previously held instance (if
any), the native instantiate call, then one connect call per table entry of
type `TYPE_CONTROL`, in table order, each on `h` with the index and the address
of the value slot of that entry, then the native activate call on `h`.  So
each control entry is connected exactly once, to its own value slot, after
the instantiate call and before the activate call, and every connect call in
this sequence is such a call (no entry of another type is connected).
Afterwards `connect_data_ports` only connects entries of type `TYPE_AUDIO`, to
one of the four audio buffers and never to a value slot (on a table in index
order, no call of it carries the index of a control entry), and `run` makes the
native run call only. -/
theorem create_instance_connects_control_ports (lilv : Lilv) (s : Host) (rate : Nat)
    (hok : (create_instance lilv s rate).1 = true) :
    ∃ h,
      (create_instance lilv s rate).2.self = { s.self with instance_ := some h } ∧
      (create_instance lilv s rate).2.calls =
        s.calls ++ (release_calls s.self ++ [NativeCall.plugin_instantiate rate (some h)] ++
          connect_control_ports_loop (some h) 0 s.self.ports ++
          [NativeCall.instance_activate (some h)]) ∧
      (∀ (pos : Nat) (p : Port), s.self.ports[pos]? = some p → p.type = PortType.TYPE_CONTROL →
        (release_calls s.self ++ [NativeCall.plugin_instantiate rate (some h)] ++
          connect_control_ports_loop (some h) 0 s.self.ports ++
          [NativeCall.instance_activate (some h)]).count
            (NativeCall.instance_connect_port (some h) p.index (DataPtr.port_value pos)) = 1) ∧
      (∀ (inst : Option Nat) (i : Nat) (d : DataPtr),
        NativeCall.instance_connect_port inst i d ∈
          (release_calls s.self ++ [NativeCall.plugin_instantiate rate (some h)] ++
            connect_control_ports_loop (some h) 0 s.self.ports ++
            [NativeCall.instance_activate (some h)]) →
        ∃ pos p, s.self.ports[pos]? = some p ∧ p.type = PortType.TYPE_CONTROL ∧
          inst = some h ∧ i = p.index ∧ d = DataPtr.port_value pos) ∧
      (∀ c ∈ connect_data_ports_calls (create_instance lilv s rate).2.self,
        ∃ p ∈ s.self.ports, p.type = PortType.TYPE_AUDIO ∧
          ∃ d ∈ [DataPtr.left_in, DataPtr.right_in, DataPtr.left_out, DataPtr.right_out],
            c = NativeCall.instance_connect_port (some h) p.index d) ∧
      (s.self.ports.Pairwise (fun a b => a.index < b.index) →
        ∀ p ∈ s.self.ports, p.type = PortType.TYPE_CONTROL → ∀ (inst : Option Nat) (d : DataPtr),
          NativeCall.instance_connect_port inst p.index d ∉
            connect_data_ports_calls (create_instance lilv s rate).2.self) ∧
      (run (create_instance lilv s rate).2).calls =
        (create_instance lilv s rate).2.calls ++
          [NativeCall.instance_run (some h) s.self.n_samples] := by
  rw [create_instance_eq] at hok ⊢
  cases hr : lilv.plugin_instantiate (s.calls ++ release_calls s.self) s.self.plugin rate with
  | none => rw [hr] at hok; simp at hok
  | some h =>
    have hdata : ∀ c ∈ connect_data_ports_loop (some h) s.self.ports 0 0,
        ∃ p ∈ s.self.ports, p.type = PortType.TYPE_AUDIO ∧
          ∃ d ∈ [DataPtr.left_in, DataPtr.right_in, DataPtr.left_out, DataPtr.right_out],
            c = NativeCall.instance_connect_port (some h) p.index d :=
      fun c hc => mem_connect_data_ports_loop (some h) s.self.ports 0 0 c hc
    refine ⟨h, rfl, by simp, ?_, ?_, hdata, ?_, by simp [run]⟩
    · intro pos p hpos hp
      have hc := count_connect_control_ports_loop (some h) s.self.ports 0 pos p hpos hp
      rw [Nat.zero_add] at hc
      have h0 : (release_calls s.self).count
          (NativeCall.instance_connect_port (some h) p.index (DataPtr.port_value pos)) = 0 :=
        List.count_eq_zero.2 (release_calls_no_connect _ _ _ _)
      simp only [List.count_append, hc, h0]
      simp
    · intro inst i d hm
      simp only [List.mem_append, List.mem_singleton, reduceCtorEq, or_false] at hm
      rcases hm with hm | hm
      · exact absurd hm (release_calls_no_connect _ _ _ _)
      · rw [mem_connect_control_ports_loop] at hm
        obtain ⟨k, p, hk, hp, hc⟩ := hm
        injection hc with h1 h2 h3
        exact ⟨k, p, hk, hp, h1, h2, by rw [h3, Nat.zero_add]⟩
    · intro hs p hp hpc inst d hm
      obtain ⟨q, hq, hqa, d2, _, hc⟩ := hdata _ hm
      injection hc with _ h2 _
      have hqp : p = q := index_injective s.self.ports hs p hp q hq h2
      rw [hqp, hqa] at hpc
      exact absurd hpc (by decide)

/-- C2, at a concrete wrapper: the successful `create_instance` of `gain_host`. -/
theorem create_instance_connects_control_ports_witness :
    (create_instance gain_lilv gain_host 48000).1 = true ∧
    ∃ h, (create_instance gain_lilv gain_host 48000).2.calls =
        gain_host.calls ++ (release_calls gain_host.self ++
          [NativeCall.plugin_instantiate 48000 (some h)] ++
          connect_control_ports_loop (some h) 0 gain_host.self.ports ++
          [NativeCall.instance_activate (some h)]) :=
  ⟨by decide,
    (create_instance_connects_control_ports gain_lilv gain_host 48000 (by decide)).elim
      (fun h hh => ⟨h, hh.2.1⟩)⟩

/-! ## No leaked native handle -/

theorem live_handles_append (a b : List NativeCall) :
    live_handles (a ++ b) = live_handles a + live_handles b := by
  simp [live_handles, List.sum_append]

theorem within_one_append (a : List NativeCall) :
    ∀ (n : Int) (b : List NativeCall),
      within_one n a → within_one (n + live_handles a) b → within_one n (a ++ b) := by
  induction a with
  | nil =>
    intro n b _ hb
    simpa [live_handles] using hb
  | cons c cs ih =>
    intro n b ha hb
    refine ⟨ha.1, ih (n + live_delta c) b ha.2 ?_⟩
    have he : n + live_handles (c :: cs) = n + live_delta c + live_handles cs := by
      simp [live_handles]
      omega
    rw [he] at hb
    exact hb

theorem within_one_of_zero (l : List NativeCall) :
    ∀ (n : Int), 0 ≤ n → n ≤ 1 → (∀ c ∈ l, live_delta c = 0) → within_one n l := by
  induction l with
  | nil => intro n h0 h1 _; exact ⟨h0, h1⟩
  | cons c cs ih =>
    intro n h0 h1 hz
    have hc : live_delta c = 0 := hz c (List.mem_cons_self _ _)
    refine ⟨⟨h0, h1⟩, ?_⟩
    rw [hc, add_zero]
    exact ih n h0 h1 (fun x hx => hz x (List.mem_cons_of_mem _ hx))

theorem live_handles_of_zero (l : List NativeCall) (hz : ∀ c ∈ l, live_delta c = 0) :
    live_handles l = 0 := by
  induction l with
  | nil => rfl
  | cons c cs ih =>
    have hc : live_delta c = 0 := hz c (List.mem_cons_self _ _)
    have h2 := ih (fun x hx => hz x (List.mem_cons_of_mem _ hx))
    simp only [live_handles, List.map_cons, List.sum_cons] at h2 ⊢
    rw [hc, h2]
    rfl

theorem within_one_take (l : List NativeCall) :
    ∀ (n : Int) (k : Nat), within_one n l →
      0 ≤ n + live_handles (l.take k) ∧ n + live_handles (l.take k) ≤ 1 := by
  induction l with
  | nil =>
    intro n k h
    simpa [live_handles] using h
  | cons c cs ih =>
    intro n k h
    cases k with
    | zero => simpa [live_handles] using h.1
    | succ k =>
      have h2 := ih (n + live_delta c) k h.2
      have he : n + live_handles ((c :: cs).take (k + 1)) =
          n + live_delta c + live_handles (cs.take k) := by
        simp [live_handles]
        omega
      rw [he]
      exact h2

theorem connect_control_ports_loop_delta (inst : Option Nat) (ps : List Port) (pos0 : Nat) :
    ∀ c ∈ connect_control_ports_loop inst pos0 ps, live_delta c = 0 := by
  intro c hc
  rw [mem_connect_control_ports_loop] at hc
  obtain ⟨k, p, _, _, hc⟩ := hc
  rw [hc]
  rfl

/-- One `create_instance` keeps the handle count within 0..1 at every point and
leaves it equal to the number of instances the wrapper holds. -/
theorem create_instance_within_one (lilv : Lilv) (s : Host) (rate : Nat)
    (hw : within_one 0 s.calls)
    (hl : live_handles s.calls = if s.self.instance_ = none then 0 else 1) :
    within_one 0 (create_instance lilv s rate).2.calls ∧
    live_handles (create_instance lilv s rate).2.calls =
      if (create_instance lilv s rate).2.self.instance_ = none then 0 else 1 := by
  rw [create_instance_eq]
  have hrel : within_one (live_handles s.calls) (release_calls s.self) ∧
      live_handles s.calls + live_handles (release_calls s.self) = 0 := by
    unfold release_calls
    cases hi : s.self.instance_ with
    | none =>
      rw [hi] at hl
      simp only [if_true] at hl
      rw [hl]
      exact ⟨⟨le_refl _, by decide⟩, rfl⟩
    | some h0 =>
      rw [hi] at hl
      simp only [reduceCtorEq, if_false] at hl
      rw [hl]
      exact ⟨by simp [within_one, live_delta], rfl⟩
  have hpre : within_one 0 (s.calls ++ release_calls s.self) :=
    within_one_append _ _ _ hw (by rw [zero_add]; exact hrel.1)
  have hpl : live_handles (s.calls ++ release_calls s.self) = 0 := by
    rw [live_handles_append]; exact hrel.2
  cases hr : lilv.plugin_instantiate (s.calls ++ release_calls s.self) s.self.plugin rate with
  | none =>
    refine ⟨within_one_append _ _ _ hpre ?_, ?_⟩
    · rw [hpl]; simp [within_one, live_delta]
    · simp only [live_handles_append, hpl]
      rfl
  | some h =>
    have hk := connect_control_ports_loop_delta (some h) s.self.ports 0
    refine ⟨?_, ?_⟩
    · refine within_one_append _ _ _ (within_one_append _ _ _ (within_one_append _ _ _ hpre ?_) ?_) ?_
      · rw [hpl]; simp [within_one, live_delta]
      · have h1 : live_handles [NativeCall.plugin_instantiate rate (some h)] = 1 := rfl
        simp only [live_handles_append, hpl, h1]
        exact within_one_of_zero _ _ (by norm_num) (by norm_num) hk
      · simp only [live_handles_append, hpl, live_handles_of_zero _ hk]
        simp [within_one, live_delta, live_handles]
    · simp only [live_handles_append, hpl, live_handles_of_zero _ hk]
      rfl

theorem create_instances_within_one (lilv : Lilv) (rates : List Nat) :
    ∀ (s : Host), within_one 0 s.calls →
      (live_handles s.calls = if s.self.instance_ = none then 0 else 1) →
      within_one 0 (create_instances lilv s rates).calls := by
  induction rates with
  | nil => intro s hw _; exact hw
  | cons rate rates ih =>
    intro s hw hl
    have h := create_instance_within_one lilv s rate hw hl
    exact ih _ h.1 h.2

/-- C4: for every sequence of `create_instance` calls on a wrapper that starts with
no instance and no native call made, the number of handles instantiated and not
yet freed is 0 or 1 after every initial segment of the native calls; and a
`create_instance` on a wrapper that holds an instance `h` makes native
deactivate on `h`, then native free on `h`, before its native instantiate. -/
theorem create_instance_no_leak (lilv : Lilv) (s : Host) (rates : List Nat)
    (hinst : s.self.instance_ = none) (hcalls : s.calls = []) :
    (∀ k : Nat,
      0 ≤ live_handles ((create_instances lilv s rates).calls.take k) ∧
      live_handles ((create_instances lilv s rates).calls.take k) ≤ 1) ∧
    (∀ (t : Host) (h : Nat) (rate : Nat), t.self.instance_ = some h →
      ∃ r rest, (create_instance lilv t rate).2.calls =
        t.calls ++ [NativeCall.instance_deactivate (some h), NativeCall.instance_free (some h),
                    NativeCall.plugin_instantiate rate r] ++ rest) := by
  constructor
  · intro k
    have hw : within_one 0 (create_instances lilv s rates).calls :=
      create_instances_within_one lilv rates s (by rw [hcalls]; exact ⟨le_refl _, by decide⟩)
        (by rw [hcalls, hinst]; rfl)
    have h := within_one_take _ 0 k hw
    simpa using h
  · intro t h rate ht
    rw [create_instance_eq]
    cases hr : lilv.plugin_instantiate (t.calls ++ release_calls t.self) t.self.plugin rate with
    | none => exact ⟨none, [], by simp [release_calls, ht]⟩
    | some h2 =>
      exact ⟨some h2, connect_control_ports_loop (some h2) 0 t.self.ports ++
        [NativeCall.instance_activate (some h2)], by simp [release_calls, ht]⟩

/-- C4, at a concrete wrapper: three `create_instance` calls on `gain_host`, the
second one failing. -/
theorem create_instance_no_leak_witness :
    gain_host.self.instance_ = none ∧ gain_host.calls = [] ∧
    (∀ k : Nat,
      0 ≤ live_handles ((create_instances gain_lilv gain_host [48000, 0, 44100]).calls.take k) ∧
      live_handles ((create_instances gain_lilv gain_host [48000, 0, 44100]).calls.take k) ≤ 1) :=
  ⟨by decide, by decide,
    (create_instance_no_leak gain_lilv gain_host [48000, 0, 44100] (by decide) (by decide)).1⟩

/-! ## Construction -/

theorem create_ports_found_plugin (init : Port) (plugin : LilvPlugin) (s : Host) :
    (create_ports init plugin s).self.found_plugin = s.self.found_plugin ∧
    (create_ports init plugin s).self.plugin = s.self.plugin := by
  simp [create_ports]

/-- C11: construction is a total function of the native library's answers, and
`found_plugin` is true exactly when the world was created, the identifier is a
valid URI and the plugin index contains it.  In every other case the wrapper
comes out with `found_plugin` false, no plugin handle, no instance, an empty
port table and all counts zero (`create_ports` has not run) and no native call
made; in the found case the wrapper holds the plugin and the table
`create_ports` made for it. -/
theorem constructor_found_plugin (lilv : Lilv) (init : Port) (log_tag plugin_uri : String) :
    ((constructor lilv init log_tag plugin_uri).self.found_plugin = true ↔
      lilv.world_new ≠ none ∧ lilv.new_uri plugin_uri = true ∧
        lilv.plugins_get_by_uri plugin_uri ≠ none) ∧
    ((constructor lilv init log_tag plugin_uri).self.found_plugin = false →
      (constructor lilv init log_tag plugin_uri).self.plugin = none ∧
      (constructor lilv init log_tag plugin_uri).self.instance_ = none ∧
      (constructor lilv init log_tag plugin_uri).self.ports = [] ∧
      (constructor lilv init log_tag plugin_uri).self.n_ports = 0 ∧
      (constructor lilv init log_tag plugin_uri).self.n_audio_in = 0 ∧
      (constructor lilv init log_tag plugin_uri).self.n_audio_out = 0 ∧
      (constructor lilv init log_tag plugin_uri).calls = []) ∧
    (∀ plugin, lilv.world_new ≠ none → lilv.new_uri plugin_uri = true →
      lilv.plugins_get_by_uri plugin_uri = some plugin →
      (constructor lilv init log_tag plugin_uri).self.plugin = some plugin ∧
      (constructor lilv init log_tag plugin_uri).self.ports.length = plugin.ports.length) := by
  cases hw : lilv.world_new with
  | none => simp [constructor, hw, initial]
  | some w =>
    cases hu : lilv.new_uri plugin_uri with
    | false => simp [constructor, hw, hu, initial]
    | true =>
      cases hp : lilv.plugins_get_by_uri plugin_uri with
      | none => simp [constructor, hw, hu, hp, initial]
      | some plugin =>
        have heq : constructor lilv init log_tag plugin_uri =
            create_ports init plugin (check_required_features plugin
              { self := { initial log_tag plugin_uri with
                  world := some w, plugin := some plugin, found_plugin := true }
                calls := [], log := [] }) := by
          simp [constructor, hw, hu, hp]
        rw [heq]
        refine ⟨?_, ?_, ?_⟩
        · rw [(create_ports_found_plugin _ _ _).1]
          simp [check_required_features]
        · rw [(create_ports_found_plugin _ _ _).1]
          simp [check_required_features]
        · intro plugin2 _ _ h2
          rw [(create_ports_found_plugin _ _ _).2]
          simp only [Option.some.injEq] at h2
          subst h2
          refine ⟨by simp [check_required_features], ?_⟩
          simp [create_ports, create_ports_loop_length, resize_length]

/-- C11, at concrete libraries: one that cannot create the world, and `gain_lilv`,
which finds `gain_plugin`. -/
theorem constructor_found_plugin_witness :
    (constructor { gain_lilv with world_new := none } zero_port "lv2_wrapper: "
        "urn:example:gain").self.found_plugin = false ∧
    (constructor { gain_lilv with world_new := none } zero_port "lv2_wrapper: "
        "urn:example:gain").self.ports = [] ∧
    gain_host.self.plugin = some gain_plugin ∧
    gain_host.self.ports.length = gain_plugin.ports.length :=
  ⟨by decide,
    ((constructor_found_plugin { gain_lilv with world_new := none } zero_port "lv2_wrapper: "
        "urn:example:gain").2.1 (by decide)).2.2.1,
    ((constructor_found_plugin gain_lilv zero_port "lv2_wrapper: " "urn:example:gain").2.2
        gain_plugin (by decide) (by decide) (by decide)).1,
    ((constructor_found_plugin gain_lilv zero_port "lv2_wrapper: " "urn:example:gain").2.2
        gain_plugin (by decide) (by decide) (by decide)).2⟩

/-! ## Sample rate 0 -/

/-- C12 fails as stated: on a native library that returns a handle for rate 0,
`create_instance` with rate 0 succeeds and the wrapper holds the instance. -/
theorem create_instance_rate_zero_succeeds :
    (open_host gain_plugin).self.instance_ = none ∧
    (every_rate_lilv gain_plugin).plugin_instantiate
      ((open_host gain_plugin).calls ++ release_calls (open_host gain_plugin).self)
      (open_host gain_plugin).self.plugin 0 = some 1 ∧
    (create_instance (every_rate_lilv gain_plugin) (open_host gain_plugin) 0).1 = true ∧
    (create_instance (every_rate_lilv gain_plugin) (open_host gain_plugin) 0).2.self.instance_ =
      some 1 := by
  decide

/-- C12, amended: `create_instance` does not inspect the rate; with rate 0 it makes
the native instantiation call with that rate, and it returns failure, leaving
the slot Uninstantiated (instance null), exactly when that call returns no
handle; when the call returns a handle `h` it returns success and holds `h`. -/
theorem create_instance_rate_zero (lilv : Lilv) (s : Host) :
    ((create_instance lilv s 0).1 = false ↔
      lilv.plugin_instantiate (s.calls ++ release_calls s.self) s.self.plugin 0 = none) ∧
    ((create_instance lilv s 0).1 = false →
      (create_instance lilv s 0).2.self.instance_ = none) ∧
    (∀ h, lilv.plugin_instantiate (s.calls ++ release_calls s.self) s.self.plugin 0 = some h →
      (create_instance lilv s 0).1 = true ∧
      (create_instance lilv s 0).2.self.instance_ = some h) ∧
    NativeCall.plugin_instantiate 0
        (lilv.plugin_instantiate (s.calls ++ release_calls s.self) s.self.plugin 0) ∈
      (create_instance lilv s 0).2.calls := by
  rw [create_instance_eq]
  cases hr : lilv.plugin_instantiate (s.calls ++ release_calls s.self) s.self.plugin 0 with
  | none => simp
  | some h => simp

/-- C12, amended, at concrete libraries: `gain_lilv` returns no handle for rate 0,
`every_rate_lilv gain_plugin` returns handle 1. -/
theorem create_instance_rate_zero_witness :
    (create_instance gain_lilv gain_host 0).2.self.instance_ = none ∧
    ((create_instance (every_rate_lilv gain_plugin) (open_host gain_plugin) 0).1 = true ∧
      (create_instance (every_rate_lilv gain_plugin) (open_host gain_plugin) 0).2.self.instance_ =
        some 1) :=
  ⟨(create_instance_rate_zero gain_lilv gain_host).2.1 (by decide),
    (create_instance_rate_zero (every_rate_lilv gain_plugin) (open_host gain_plugin)).2.2.1 1
      (by decide)⟩

/-! ## The introspection result is not touched after construction -/

theorem create_instance_self (lilv : Lilv) (s : Host) (rate : Nat) :
    (create_instance lilv s rate).2.self =
      { s.self with instance_ := (create_instance lilv s rate).2.self.instance_ } := by
  rw [create_instance_eq]
  cases lilv.plugin_instantiate (s.calls ++ release_calls s.self) s.self.plugin rate <;> rfl

theorem same_introspection_refl (a : Lv2Wrapper) : same_introspection a a :=
  ⟨rfl, rfl, rfl, rfl⟩

theorem create_instance_same_introspection (lilv : Lilv) (s : Host) (rate : Nat) :
    same_introspection (create_instance lilv s rate).2.self s.self := by
  rw [create_instance_self]
  exact ⟨rfl, rfl, rfl, rfl⟩

theorem create_instances_same_introspection (lilv : Lilv) (rates : List Nat) :
    ∀ s : Host, same_introspection (create_instances lilv s rates).self s.self := by
  induction rates with
  | nil => intro s; exact same_introspection_refl _
  | cons rate rates ih =>
    intro s
    have h1 := ih (create_instance lilv s rate).2
    have h2 := create_instance_same_introspection lilv s rate
    exact ⟨h1.1.trans h2.1, h1.2.1.trans h2.2.1, h1.2.2.1.trans h2.2.2.1,
      h1.2.2.2.trans h2.2.2.2⟩

/-- C17: `create_instance` (whether the native instantiation succeeds or fails, on
a wrapper with or without an instance, once or repeatedly),
`connect_control_ports`, `connect_data_ports`, `activate`, `deactivate`, `run` and
`set_n_samples` leave the introspection result as it is: the port table keeps
its length and, entry by entry, its index, name, symbol, type, direction and
optional flag, and `n_ports`, `n_audio_in` and `n_audio_out` keep their values. -/
theorem introspection_result_kept (lilv : Lilv) (s : Host) (rate value : Nat)
    (rates : List Nat) :
    same_introspection (create_instance lilv s rate).2.self s.self ∧
    same_introspection (create_instances lilv s rates).self s.self ∧
    same_introspection (connect_control_ports s).self s.self ∧
    same_introspection (connect_data_ports s).self s.self ∧
    same_introspection (activate s).self s.self ∧
    same_introspection (deactivate s).self s.self ∧
    same_introspection (run s).self s.self ∧
    same_introspection (set_n_samples s value).self s.self ∧
    (create_instance lilv s rate).2.self.ports.length = s.self.ports.length := by
  refine ⟨create_instance_same_introspection lilv s rate,
    create_instances_same_introspection lilv rates s,
    same_introspection_refl _, same_introspection_refl _, same_introspection_refl _,
    same_introspection_refl _, ?_, ⟨rfl, rfl, rfl, rfl⟩, ?_⟩
  · unfold run
    split
    · exact same_introspection_refl _
    · exact same_introspection_refl _
  · rw [create_instance_self]

/-! ## Classification, counts and shape faults in `create_ports` -/

theorem create_ports_body_classify (log_tag : String) (n : Nat) (port : Port)
    (lilv_port : LilvPort) (acc : PortsAcc) :
    (create_ports_body log_tag n port lilv_port acc).1 = classify port n lilv_port := by
  unfold create_ports_body classify
  by_cases h1 : lilv_port.is_ControlPort = true <;> by_cases h2 : lilv_port.is_AudioPort = true <;>
    by_cases h3 : lilv_port.is_InputPort = true <;>
    by_cases h4 : lilv_port.connectionOptional = true <;> simp [h1, h2, h3, h4]

theorem create_ports_body_log (log_tag : String) (n : Nat) (port : Port)
    (lilv_port : LilvPort) (acc : PortsAcc) :
    (create_ports_body log_tag n port lilv_port acc).2.log =
      acc.log ++ port_errors log_tag lilv_port := by
  unfold create_ports_body port_errors
  by_cases h1 : lilv_port.is_ControlPort = true <;> by_cases h2 : lilv_port.is_AudioPort = true <;>
    by_cases h3 : lilv_port.is_InputPort = true <;>
    by_cases h4 : lilv_port.connectionOptional = true <;>
    by_cases h5 : lilv_port.is_OutputPort = true <;> simp [h1, h2, h3, h4, h5]

theorem create_ports_body_counts (log_tag : String) (n : Nat) (port : Port)
    (lilv_port : LilvPort) (acc : PortsAcc) (hport : port.is_input = false) :
    (create_ports_body log_tag n port lilv_port acc).2.n_audio_in =
      acc.n_audio_in +
        (if (!lilv_port.is_ControlPort && lilv_port.is_AudioPort && lilv_port.is_InputPort) = true
          then 1 else 0) ∧
    (create_ports_body log_tag n port lilv_port acc).2.n_audio_out =
      acc.n_audio_out +
        (if (!lilv_port.is_ControlPort && lilv_port.is_AudioPort && !lilv_port.is_InputPort) = true
          then 1 else 0) := by
  unfold create_ports_body
  by_cases h1 : lilv_port.is_ControlPort = true <;> by_cases h2 : lilv_port.is_AudioPort = true <;>
    by_cases h3 : lilv_port.is_InputPort = true <;>
    by_cases h4 : lilv_port.connectionOptional = true <;> simp [h1, h2, h3, h4, hport]

theorem resize_nil (n : Nat) (init : Port) : resize [] n init = List.replicate n init := by
  simp [resize]

theorem create_ports_loop_table (log_tag : String) (ports : List Port) :
    ∀ (n : Nat) (lilv_ports : List LilvPort) (acc : PortsAcc) (k : Nat) (port : Port)
      (lp : LilvPort), ports[k]? = some port → lilv_ports[k]? = some lp →
      (create_ports_loop log_tag n ports lilv_ports acc).1[k]? = some (classify port (n + k) lp) := by
  induction ports with
  | nil => intro n lilv_ports acc k port lp hk; simp at hk
  | cons p ps ih =>
    intro n lilv_ports acc k port lp hk hl
    cases lilv_ports with
    | nil => simp at hl
    | cons q qs =>
      rw [create_ports_loop]
      cases k with
      | zero =>
        simp only [List.getElem?_cons_zero, Option.some.injEq] at hk hl
        subst hk
        subst hl
        simp [create_ports_body_classify]
      | succ k =>
        simp only [List.getElem?_cons_succ] at hk hl ⊢
        rw [ih (n + 1) qs _ k port lp hk hl]
        congr 2
        omega

theorem create_ports_loop_log (log_tag : String) (ports : List Port) :
    ∀ (n : Nat) (lilv_ports : List LilvPort) (acc : PortsAcc),
      ports.length = lilv_ports.length →
      (create_ports_loop log_tag n ports lilv_ports acc).2.log =
        acc.log ++ lilv_ports.flatMap (port_errors log_tag) := by
  induction ports with
  | nil =>
    intro n lilv_ports acc h
    cases lilv_ports with
    | nil => simp [create_ports_loop]
    | cons q qs => simp at h
  | cons p ps ih =>
    intro n lilv_ports acc h
    cases lilv_ports with
    | nil => simp at h
    | cons q qs =>
      have h2 : ps.length = qs.length := by simpa using h
      rw [create_ports_loop]
      simp only [List.flatMap_cons]
      rw [ih (n + 1) qs _ h2, create_ports_body_log, List.append_assoc]

theorem create_ports_loop_counts (log_tag : String) (ports : List Port) :
    ∀ (n : Nat) (lilv_ports : List LilvPort) (acc : PortsAcc),
      ports.length = lilv_ports.length → (∀ p ∈ ports, p.is_input = false) →
      (create_ports_loop log_tag n ports lilv_ports acc).2.n_audio_in =
        acc.n_audio_in + lilv_ports.countP
          (fun lp => !lp.is_ControlPort && lp.is_AudioPort && lp.is_InputPort) ∧
      (create_ports_loop log_tag n ports lilv_ports acc).2.n_audio_out =
        acc.n_audio_out + lilv_ports.countP
          (fun lp => !lp.is_ControlPort && lp.is_AudioPort && !lp.is_InputPort) := by
  induction ports with
  | nil =>
    intro n lilv_ports acc h _
    cases lilv_ports with
    | nil => simp [create_ports_loop]
    | cons q qs => simp at h
  | cons p ps ih =>
    intro n lilv_ports acc h hin
    cases lilv_ports with
    | nil => simp at h
    | cons q qs =>
      have h2 : ps.length = qs.length := by simpa using h
      have hb := create_ports_body_counts log_tag n p q acc (hin p (List.mem_cons_self _ _))
      have hr := ih (n + 1) qs (create_ports_body log_tag n p q acc).2 h2
        (fun x hx => hin x (List.mem_cons_of_mem _ hx))
      rw [create_ports_loop]
      simp only [List.countP_cons]
      rw [hr.1, hr.2, hb.1, hb.2]
      constructor <;> omega

theorem create_ports_fresh_table (init : Port) (plugin : LilvPlugin) (s : Host)
    (hp : s.self.ports = []) (n : Nat) (lp : LilvPort) (hn : plugin.ports[n]? = some lp) :
    (create_ports init plugin s).self.ports[n]? = some (classify init n lp) := by
  have hlt : n < plugin.ports.length := by
    rcases Nat.lt_or_ge n plugin.ports.length with h | h
    · exact h
    · rw [List.getElem?_eq_none h] at hn
      exact absurd hn (by simp)
  have h := create_ports_loop_table s.self.log_tag (resize s.self.ports plugin.ports.length init)
    0 plugin.ports
    { n_audio_in := s.self.n_audio_in, n_audio_out := s.self.n_audio_out, log := s.log }
    n init lp (by rw [hp, resize_nil, List.getElem?_replicate, if_pos hlt]) hn
  rw [Nat.zero_add] at h
  simpa [create_ports] using h

/-- C14 fails as stated: for `clash_plugin`, which declares one audio input port
(also declared control) and no audio output port, the freshly constructed
wrapper has `n_audio_in` 0 and `n_audio_out` 1 (its audio port declared neither
input nor output is counted as an output). -/
theorem audio_counts_differ_from_declared :
    declared_audio_in clash_plugin = 1 ∧
    (open_host clash_plugin).self.n_audio_in = 0 ∧
    declared_audio_out clash_plugin = 0 ∧
    (open_host clash_plugin).self.n_audio_out = 1 := by
  decide

/-- C14, amended: after `create_ports` on a freshly constructed wrapper (empty
table, counts zero, value-initialised entries not flagged input), `n_audio_in`
is the number of ports declared audio, not declared control, and declared
input, and `n_audio_out` is the number of ports declared audio, not declared
control, and not declared input.  These are the numbers of declared audio
input and audio output ports whenever no port is declared both control and
audio and every audio port is declared exactly one of input and output. -/
theorem create_ports_audio_counts (init : Port) (plugin : LilvPlugin) (s : Host)
    (hp : s.self.ports = []) (hin : s.self.n_audio_in = 0) (hout : s.self.n_audio_out = 0)
    (hi : init.is_input = false) :
    (create_ports init plugin s).self.n_audio_in =
      plugin.ports.countP (fun lp => !lp.is_ControlPort && lp.is_AudioPort && lp.is_InputPort) ∧
    (create_ports init plugin s).self.n_audio_out =
      plugin.ports.countP (fun lp => !lp.is_ControlPort && lp.is_AudioPort && !lp.is_InputPort) ∧
    ((∀ lp ∈ plugin.ports, (lp.is_ControlPort = true → lp.is_AudioPort = false) ∧
        (lp.is_AudioPort = true → lp.is_OutputPort = !lp.is_InputPort)) →
      (create_ports init plugin s).self.n_audio_in = declared_audio_in plugin ∧
      (create_ports init plugin s).self.n_audio_out = declared_audio_out plugin) := by
  have h := create_ports_loop_counts s.self.log_tag
    (resize s.self.ports plugin.ports.length init) 0 plugin.ports
    { n_audio_in := s.self.n_audio_in, n_audio_out := s.self.n_audio_out, log := s.log }
    (resize_length _ _ _)
    (by
      rw [hp, resize_nil]
      intro p hpm
      rw [List.eq_of_mem_replicate hpm]
      exact hi)
  have h1 : (create_ports init plugin s).self.n_audio_in =
      plugin.ports.countP
        (fun lp => !lp.is_ControlPort && lp.is_AudioPort && lp.is_InputPort) := by
    have h0 : (create_ports init plugin s).self.n_audio_in =
        s.self.n_audio_in + plugin.ports.countP
          (fun lp => !lp.is_ControlPort && lp.is_AudioPort && lp.is_InputPort) := h.1
    rw [h0, hin, Nat.zero_add]
  have h2 : (create_ports init plugin s).self.n_audio_out =
      plugin.ports.countP
        (fun lp => !lp.is_ControlPort && lp.is_AudioPort && !lp.is_InputPort) := by
    have h0 : (create_ports init plugin s).self.n_audio_out =
        s.self.n_audio_out + plugin.ports.countP
          (fun lp => !lp.is_ControlPort && lp.is_AudioPort && !lp.is_InputPort) := h.2
    rw [h0, hout, Nat.zero_add]
  refine ⟨h1, h2, ?_⟩
  intro hshape
  rw [h1, h2]
  unfold declared_audio_in declared_audio_out
  constructor
  · apply List.countP_congr
    intro lp hlp
    obtain ⟨hc, ha⟩ := hshape lp hlp
    cases hcv : lp.is_ControlPort <;> cases hav : lp.is_AudioPort <;> simp_all
  · apply List.countP_congr
    intro lp hlp
    obtain ⟨hc, ha⟩ := hshape lp hlp
    cases hcv : lp.is_ControlPort <;> cases hav : lp.is_AudioPort <;> simp_all

/-- C14, amended, at a concrete plugin: `gain_plugin` on a fresh wrapper. -/
theorem create_ports_audio_counts_witness :
    (create_ports zero_port gain_plugin
        { self := initial "lv2_wrapper: " "urn:example:gain", calls := [], log := [] }).self.n_audio_in =
      gain_plugin.ports.countP
        (fun lp => !lp.is_ControlPort && lp.is_AudioPort && lp.is_InputPort) ∧
    gain_plugin.ports.countP
        (fun lp => !lp.is_ControlPort && lp.is_AudioPort && lp.is_InputPort) = 1 :=
  ⟨(create_ports_audio_counts zero_port gain_plugin
      { self := initial "lv2_wrapper: " "urn:example:gain", calls := [], log := [] }
      (by decide) (by decide) (by decide) (by decide)).1, by decide⟩

/-- C15: the lines `create_ports` logs are, after the lines already there and in
port order, the shape faults of each port taken by itself: nothing for an
optional port; for a port that is not optional a direction error exactly when
it is declared neither input nor output, followed by a kind error exactly when
it is declared neither control nor audio.  Whatever the faults, the table has
one entry per plugin port, and on a freshly constructed wrapper the entry of
port `n` is the classification of that port alone, so a fault on one port
neither stops nor alters the classification of a later one. -/
theorem create_ports_shape_errors (init : Port) (plugin : LilvPlugin) (s : Host) :
    (create_ports init plugin s).log =
      s.log ++ plugin.ports.flatMap (port_errors s.self.log_tag) ∧
    (∀ lp : LilvPort, lp.connectionOptional = true → port_errors s.self.log_tag lp = []) ∧
    (∀ lp : LilvPort, lp.connectionOptional = false →
      port_errors s.self.log_tag lp =
        (if lp.is_InputPort = false ∧ lp.is_OutputPort = false then
            [LogMsg.error
              (s.self.log_tag ++ "Port " ++ lp.name ++ " is neither input nor output!")]
          else []) ++
        (if lp.is_ControlPort = false ∧ lp.is_AudioPort = false then
            [LogMsg.error (s.self.log_tag ++ "Port " ++ lp.name ++ " has un unsupported type!")]
          else [])) ∧
    (create_ports init plugin s).self.ports.length = plugin.ports.length ∧
    (s.self.ports = [] → ∀ (n : Nat) (lp : LilvPort), plugin.ports[n]? = some lp →
      (create_ports init plugin s).self.ports[n]? = some (classify init n lp)) := by
  refine ⟨?_, ?_, ?_, ?_, ?_⟩
  · simp only [create_ports]
    exact create_ports_loop_log _ _ _ _ _ (resize_length _ _ _)
  · intro lp ho
    simp [port_errors, ho]
  · intro lp ho
    simp [port_errors, ho]
  · simp [create_ports, create_ports_loop_length, resize_length]
  · intro hp n lp hn
    exact create_ports_fresh_table init plugin s hp n lp hn

/-- C15, at a concrete plugin: the optional port "Loose" of `clash_plugin` gives no
error, and port 1 of `atom_plugin`, which follows the faulty port 0, is
classified as the audio input it is declared to be. -/
theorem create_ports_shape_errors_witness :
    port_errors "lv2_wrapper: "
      { name := "Loose", symbol := "loose", default_value := 0, connectionOptional := true,
        is_InputPort := false, is_OutputPort := false,
        is_ControlPort := false, is_AudioPort := true } = [] ∧
    (create_ports zero_port atom_plugin
        { self := initial "lv2_wrapper: " "urn:example:plugin", calls := [], log := [] }).self.ports[1]? =
      some (classify zero_port 1
        { name := "In", symbol := "in", default_value := 0x7FC00000, connectionOptional := false,
          is_InputPort := true, is_OutputPort := false,
          is_ControlPort := false, is_AudioPort := true }) :=
  ⟨(create_ports_shape_errors zero_port clash_plugin
      { self := initial "lv2_wrapper: " "urn:example:plugin", calls := [], log := [] }).2.1 _ rfl,
    (create_ports_shape_errors zero_port atom_plugin
      { self := initial "lv2_wrapper: " "urn:example:plugin", calls := [], log := [] }).2.2.2.2
      (by decide) 1 _ (by decide)⟩

/-- When the value-initialised `Port` has type `TYPE_CONTROL`, every plugin port that
is declared neither control nor audio ends up in the table with type
`TYPE_CONTROL`, and `connect_control_ports` passes its index and value slot to
the native connect call. -/
theorem unclassified_port_connected (init : Port) (hinit : init.type = PortType.TYPE_CONTROL)
    (plugin : LilvPlugin) (s : Host) (hp : s.self.ports = []) (n : Nat) (lp : LilvPort)
    (hn : plugin.ports[n]? = some lp)
    (hc : lp.is_ControlPort = false) (ha : lp.is_AudioPort = false) (inst : Option Nat) :
    NativeCall.instance_connect_port inst n (DataPtr.port_value n) ∈
      connect_control_ports_loop inst 0 (create_ports init plugin s).self.ports := by
  rw [mem_connect_control_ports_loop]
  refine ⟨n, classify init n lp, create_ports_fresh_table init plugin s hp n lp hn, ?_, ?_⟩
  · simp [classify, hc, ha, hinit]
  · simp [classify]

/-- C16, the code at a failing input: `atom_plugin` has port 0 declared neither
control nor audio.  With an all-zero value-initialised `Port`, construction logs
the unsupported-type error for it, its table entry has type `TYPE_CONTROL`, and
a successful `create_instance` connects index 0 to that entry's value slot. -/
theorem unsupported_port_is_connected :
    (open_host atom_plugin).log =
      [LogMsg.error "lv2_wrapper: Port Events has un unsupported type!"] ∧
    (open_host atom_plugin).self.ports.map Port.type =
      [PortType.TYPE_CONTROL, PortType.TYPE_AUDIO, PortType.TYPE_AUDIO] ∧
    (create_instance (every_rate_lilv atom_plugin) (open_host atom_plugin) 48000).2.calls =
      [NativeCall.plugin_instantiate 48000 (some 1),
       NativeCall.instance_connect_port (some 1) 0 (DataPtr.port_value 0),
       NativeCall.instance_activate (some 1)] := by
  decide

end lv2

namespace ui

/-! ## Spin button input -/

theorem clamp_bounds {α : Type} [LinearOrder α] (v lo hi : α) (h : lo ≤ hi) :
    lo ≤ clamp v lo hi ∧ clamp v lo hi ≤ hi := by
  unfold clamp
  by_cases h1 : v < lo
  · rw [if_pos h1]
    exact ⟨le_refl _, h⟩
  · rw [if_neg h1]
    by_cases h2 : hi < v
    · rw [if_pos h2]
      exact ⟨h, le_refl _⟩
    · rw [if_neg h2]
      exact ⟨not_lt.1 h1, not_lt.1 h2⟩

/-- C18: for every spin button whose range has `min ≤ max` and every text from
which the extraction in the user locale reads a number `v`,
`parse_spinbutton_input` returns 1 and stores `v` when `min ≤ v ≤ max`, `min` when
`v < min` and `max` when `v > max`, so the stored value lies in `[min, max]`; for
every text from which no number can be read it returns `GTK_INPUT_ERROR`. -/
theorem parse_spinbutton_input_clamps {α : Type} [LinearOrder α]
    (extract : List Nat → α → Bool × α) (button : GtkSpinButton α) (old : α)
    (hrange : button.min ≤ button.max) :
    (∀ v : α, extract button.text old = (true, v) →
      (parse_spinbutton_input extract button old).1 = 1 ∧
      button.min ≤ (parse_spinbutton_input extract button old).2 ∧
      (parse_spinbutton_input extract button old).2 ≤ button.max ∧
      (button.min ≤ v → v ≤ button.max → (parse_spinbutton_input extract button old).2 = v) ∧
      (v < button.min → (parse_spinbutton_input extract button old).2 = button.min) ∧
      (button.max < v → (parse_spinbutton_input extract button old).2 = button.max)) ∧
    ((extract button.text old).1 = false →
      (parse_spinbutton_input extract button old).1 = GTK_INPUT_ERROR) := by
  constructor
  · intro v hv
    have hb := clamp_bounds v button.min button.max hrange
    simp only [parse_spinbutton_input, hv, if_true]
    refine ⟨trivial, hb.1, hb.2, ?_, ?_, ?_⟩
    · intro h1 h2
      unfold clamp
      rw [if_neg (not_lt.2 h1), if_neg (not_lt.2 h2)]
    · intro h1
      unfold clamp
      rw [if_pos h1]
    · intro h2
      unfold clamp
      rw [if_neg (not_lt.2 (le_trans hrange (le_of_lt h2))), if_pos h2]
  · intro hf
    simp [parse_spinbutton_input, hf]

/-- C18, at a concrete button: range 0..10, the text "12" read as the number 12, on
the integers. -/
theorem parse_spinbutton_input_clamps_witness :
    parse_spinbutton_input (fun text (_ : Int) => if text = [49, 50] then (true, 12) else (false, 0))
        { text := [49, 50], min := 0, max := 10 } 0 = (1, 10) ∧
    (parse_spinbutton_input (fun text (_ : Int) => if text = [49, 50] then (true, 12) else (false, 0))
        { text := [49, 50], min := 0, max := 10 } 0).1 = 1 :=
  ⟨by decide,
    ((parse_spinbutton_input_clamps
      (fun text (_ : Int) => if text = [49, 50] then (true, 12) else (false, 0))
      { text := [49, 50], min := 0, max := 10 } 0 (by decide)).1 12 (by decide)).1⟩

/-! ## String lists -/

theorem string_list_has_iff (l : List (List Nat)) (name : List Nat) :
    string_list_has l name = true ↔ name ∈ l := by
  induction l with
  | nil => simp [string_list_has]
  | cons item items ih =>
    rw [string_list_has]
    by_cases h : item = name
    · simp [h]
    · rw [if_neg h, ih]
      simp [Ne.symm h]

theorem c_str_of_no_nul (name : List Nat) (h : 0 ∉ name) : c_str name = name := by
  unfold c_str
  rw [List.takeWhile_eq_self_iff]
  intro x hx
  have : x ≠ 0 := fun h0 => h (h0 ▸ hx)
  simpa using this

theorem remove_appended (l : List (List Nat)) (name : List Nat) (h : name ∉ l) :
    remove_from_string_list (l ++ [name]) name = l := by
  induction l with
  | nil => simp [remove_from_string_list]
  | cons item items ih =>
    rw [List.mem_cons, not_or] at h
    rw [List.cons_append, remove_from_string_list, if_neg (Ne.symm h.1), ih h.2]

/-- C20 fails as stated: for a name with an embedded 0 byte the loop finds no equal
item and the bytes before the 0 are appended, so a list without duplicates
gets one, the appended item is not the name, and a second call appends again. -/
theorem append_to_string_list_embedded_nul :
    [[97]].Nodup ∧
    append_to_string_list [[97]] [97, 0, 98] = [[97], [97]] ∧
    ¬ (append_to_string_list [[97]] [97, 0, 98]).Nodup ∧
    append_to_string_list [[97]] [97, 0, 98] ≠ [[97]] ++ [[97, 0, 98]] ∧
    append_to_string_list (append_to_string_list [[97]] [97, 0, 98]) [97, 0, 98] ≠
      append_to_string_list [[97]] [97, 0, 98] := by
  decide

/-- C20, amended: for every list and every name without a 0 byte,
`append_to_string_list` leaves the list unchanged if the name already occurs and
otherwise adds the name at the end; hence a list without duplicates stays
without duplicates, appending the same name twice equals appending it once,
and `remove_from_string_list` of a name that was absent before the append
restores the original list. -/
theorem append_to_string_list_spec (l : List (List Nat)) (name : List Nat) (hname : 0 ∉ name) :
    (name ∈ l → append_to_string_list l name = l) ∧
    (name ∉ l → append_to_string_list l name = l ++ [name]) ∧
    (l.Nodup → (append_to_string_list l name).Nodup) ∧
    append_to_string_list (append_to_string_list l name) name = append_to_string_list l name ∧
    (name ∉ l → remove_from_string_list (append_to_string_list l name) name = l) := by
  have hin : name ∈ l → append_to_string_list l name = l := by
    intro h
    unfold append_to_string_list
    rw [if_pos ((string_list_has_iff l name).2 h)]
  have hout : name ∉ l → append_to_string_list l name = l ++ [name] := by
    intro h
    unfold append_to_string_list
    rw [if_neg (fun hh => h ((string_list_has_iff l name).1 hh)), c_str_of_no_nul name hname]
  refine ⟨hin, hout, ?_, ?_, ?_⟩
  · intro hnd
    by_cases h : name ∈ l
    · rw [hin h]; exact hnd
    · rw [hout h]
      rw [List.nodup_append]
      refine ⟨hnd, List.nodup_singleton _, ?_⟩
      intro x hx hx2
      rw [List.mem_singleton] at hx2
      exact h (hx2 ▸ hx)
  · by_cases h : name ∈ l
    · rw [hin h, hin h]
    · rw [hout h]
      unfold append_to_string_list
      rw [if_pos ((string_list_has_iff _ name).2 (by simp))]
  · intro h
    rw [hout h, remove_appended l name h]

/-- C20, amended, at a concrete list: appending "b" to ["a"]. -/
theorem append_to_string_list_spec_witness :
    append_to_string_list [[97]] [98] = [[97]] ++ [[98]] ∧
    remove_from_string_list (append_to_string_list [[97]] [98]) [98] = [[97]] :=
  ⟨(append_to_string_list_spec [[97]] [98] (by decide)).2.1 (by decide),
    (append_to_string_list_spec [[97]] [98] (by decide)).2.2.2.2 (by decide)⟩

namespace presets_menu

/-! ## Preset creation -/

theorem take_hundred (name : List Nat) :
    (if name.length > 100 then name.take 100 else name) = name.take 100 := by
  by_cases h : name.length > 100
  · rw [if_pos h]
  · rw [if_neg h, List.take_of_length_le (by omega)]

theorem any_slash_iff (name : List Nat) :
    name.any (fun c => c == 92 || c == 47) = true ↔ (92 ∈ name ∨ 47 ∈ name) := by
  rw [List.any_eq_true]
  constructor
  · rintro ⟨x, hx, hc⟩
    simp only [Bool.or_eq_true, beq_iff_eq] at hc
    rcases hc with hc | hc
    · exact Or.inl (hc ▸ hx)
    · exact Or.inr (hc ▸ hx)
  · rintro (h | h)
    · exact ⟨92, h, by simp⟩
    · exact ⟨47, h, by simp⟩

/-- C19: for every text of the name field, `create_preset` calls
`presets_manager->add` at most once, and it calls it exactly when the made-valid
text is not empty and its first 100 bytes contain neither `/` (47) nor `\`
(92); the name passed is then the made-valid text cut to its first 100 bytes,
so it has between 1 and 100 bytes and contains neither `/` nor `\`. -/
theorem create_preset_safe_name (g_utf8_make_valid : List Nat → List Nat) (text : List Nat) :
    (added (create_preset g_utf8_make_valid text)).length ≤ 1 ∧
    (added (create_preset g_utf8_make_valid text) = [(g_utf8_make_valid text).take 100] ↔
      (g_utf8_make_valid text ≠ [] ∧ 47 ∉ (g_utf8_make_valid text).take 100 ∧
        92 ∉ (g_utf8_make_valid text).take 100)) ∧
    (¬ (g_utf8_make_valid text ≠ [] ∧ 47 ∉ (g_utf8_make_valid text).take 100 ∧
        92 ∉ (g_utf8_make_valid text).take 100) →
      added (create_preset g_utf8_make_valid text) = []) ∧
    (∀ name ∈ added (create_preset g_utf8_make_valid text),
      name = (g_utf8_make_valid text).take 100 ∧ 1 ≤ name.length ∧ name.length ≤ 100 ∧
        47 ∉ name ∧ 92 ∉ name) := by
  have hcases : (g_utf8_make_valid text ≠ [] ∧ 47 ∉ (g_utf8_make_valid text).take 100 ∧
        92 ∉ (g_utf8_make_valid text).take 100 ∧
        added (create_preset g_utf8_make_valid text) = [(g_utf8_make_valid text).take 100]) ∨
      (¬ (g_utf8_make_valid text ≠ [] ∧ 47 ∉ (g_utf8_make_valid text).take 100 ∧
        92 ∉ (g_utf8_make_valid text).take 100) ∧
        added (create_preset g_utf8_make_valid text) = []) := by
    unfold create_preset
    simp only [take_hundred]
    cases hv : g_utf8_make_valid text with
    | nil => right; simp [added]
    | cons b bs =>
      by_cases hs : ((b :: bs).take 100).any (fun c => c == 92 || c == 47) = true
      · right
        have hs2 := (any_slash_iff _).1 hs
        simp only [List.isEmpty_cons, Bool.false_eq_true, if_false, hs, if_true, added]
        refine ⟨?_, trivial⟩
        rintro ⟨_, h47, h92⟩
        rcases hs2 with h | h
        · exact h92 h
        · exact h47 h
      · left
        have hs2 : ¬ (92 ∈ (b :: bs).take 100 ∨ 47 ∈ (b :: bs).take 100) :=
          fun h => hs ((any_slash_iff _).2 h)
        simp only [List.isEmpty_cons, Bool.false_eq_true, if_false, hs, added]
        exact ⟨by simp, fun h => hs2 (Or.inr h), fun h => hs2 (Or.inl h), trivial⟩
  rcases hcases with ⟨hne, h47, h92, hadd⟩ | ⟨hnot, hadd⟩
  · refine ⟨by rw [hadd]; simp, ⟨fun _ => ⟨hne, h47, h92⟩, fun _ => hadd⟩,
      fun hn => absurd ⟨hne, h47, h92⟩ hn, ?_⟩
    intro name hname
    rw [hadd, List.mem_singleton] at hname
    subst hname
    refine ⟨rfl, ?_, List.length_take_le _ _, h47, h92⟩
    cases hv : g_utf8_make_valid text with
    | nil => exact absurd hv hne
    | cons b bs => simp
  · refine ⟨by rw [hadd]; simp, ⟨fun h => ?_, fun h => absurd h hnot⟩, fun _ => hadd, ?_⟩
    · rw [hadd] at h
      exact absurd h (by simp)
    · intro name hname
      rw [hadd] at hname
      exact absurd hname (List.not_mem_nil _)

/-- C19, at a concrete text: "a/b" is rejected, "ab" is added. -/
theorem create_preset_safe_name_witness :
    added (create_preset id [97, 47, 98]) = [] ∧
    added (create_preset id [97, 98]) = [[97, 98]] ∧
    (∀ name ∈ added (create_preset id [97, 98]),
      name = ([97, 98] : List Nat).take 100 ∧ 1 ≤ name.length ∧ name.length ≤ 100 ∧
        47 ∉ name ∧ 92 ∉ name) :=
  ⟨(create_preset_safe_name id [97, 47, 98]).2.2.1 (by decide), by decide,
    (create_preset_safe_name id [97, 98]).2.2.2⟩

end presets_menu

namespace preferences_window

/-! ## Spectrum type mapping -/

/-- C21: the settings-to-widget mapping of the spectrum "type" sends "Bars" to
index 0 and "Lines" to index 1 (and reports success), the widget-to-settings
mapping sends 0 to "Bars" and 1 to "Lines"; so widget-to-settings after
settings-to-widget is the identity on "Bars" and "Lines", and
settings-to-widget after widget-to-settings is the identity on 0 and 1.  Every
index other than 1 maps to "Bars", so the widget-to-settings mapping only ever
produces "Bars" or "Lines". -/
theorem spectrum_type_round_trip (value : Int) :
    spectrum_type_get_mapping value "Bars" = (1, 0) ∧
    spectrum_type_get_mapping value "Lines" = (1, 1) ∧
    spectrum_type_set_mapping 0 = "Bars" ∧
    spectrum_type_set_mapping 1 = "Lines" ∧
    spectrum_type_set_mapping (spectrum_type_get_mapping value "Bars").2 = "Bars" ∧
    spectrum_type_set_mapping (spectrum_type_get_mapping value "Lines").2 = "Lines" ∧
    (spectrum_type_get_mapping value (spectrum_type_set_mapping 0)).2 = 0 ∧
    (spectrum_type_get_mapping value (spectrum_type_set_mapping 1)).2 = 1 ∧
    (∀ i : Int, spectrum_type_set_mapping i = if i = 1 then "Lines" else "Bars") ∧
    (∀ i : Int, spectrum_type_set_mapping i = "Bars" ∨ spectrum_type_set_mapping i = "Lines") := by
  have hset : ∀ i : Int, spectrum_type_set_mapping i = if i = 1 then "Lines" else "Bars" := by
    intro i
    unfold spectrum_type_set_mapping
    by_cases h0 : i = 0
    · subst h0
      rfl
    · rw [if_neg h0]
  have hbars : spectrum_type_get_mapping value "Bars" = (1, 0) := by
    unfold spectrum_type_get_mapping
    rw [if_pos rfl]
  have hlines : spectrum_type_get_mapping value "Lines" = (1, 1) := by
    unfold spectrum_type_get_mapping
    rw [if_neg (by decide), if_pos rfl]
  have h0 : spectrum_type_set_mapping 0 = "Bars" := rfl
  have h1 : spectrum_type_set_mapping 1 = "Lines" := rfl
  refine ⟨hbars, hlines, h0, h1, ?_, ?_, ?_, ?_, hset, ?_⟩
  · rw [hbars]; exact h0
  · rw [hlines]; exact h1
  · rw [h0, hbars]
  · rw [h1, hlines]
  · intro i
    rw [hset i]
    by_cases h : i = 1
    · right; rw [if_pos h]
    · left; rw [if_neg h]

end preferences_window

end ui
